import Mathlib

/-!
# Order mutation workflow of `server.js`

A shallow embedding of the three order-mutating handlers of `src/server.js`
(`POST /api/pedidos`, `PUT /api/pedidos/:id`, `DELETE /api/pedidos/:id`) and of
the list handler (`GET /api/pedidos`), together with the statements the
specification makes about them.

Modelling choices.

* A handler is a pure function from the persisted tables, the request and a
  failure oracle to an `Outcome`: the persisted tables afterwards, the
  statements issued on the connection, the events emitted on the push channel
  and the HTTP response.
* Every `await connection.…` that can reject (`beginTransaction`, `query`,
  `commit`) consults the oracle `fail : Nat → Bool` at the position the
  statement has in the sequence of statements issued so far. A rejected
  statement has no effect on the tables and transfers control to the `catch`
  block. `pool.getConnection`, `connection.rollback` and `connection.release`
  are taken to succeed.
* JavaScript values that reach the handlers through the JSON body are the JSON
  scalars `null`, booleans, strings and the integers of magnitude below `2^53`
  (`Val`): those are the numbers a JSON body carries exactly and a template
  literal prints in plain decimal digits. A key that is absent from the body
  (`undefined`) is `none`.
* `:id` is a natural number.
-/

namespace Vidrieria

/-! ## Values -/

/-- Integer that a JSON body carries exactly and that the string conversion of
JavaScript prints in plain decimal digits: its magnitude lies below `2^53`. -/
structure SafeInt where
  val : Int
  safe : val.natAbs < 9007199254740992
  deriving DecidableEq

/-- JSON scalar carried by a request body or stored in a column. -/
inductive Val where
  | null
  | bool (b : Bool)
  | num (n : SafeInt)
  | str (s : String)
  deriving DecidableEq

/-- JavaScript truthiness, as tested by `if (estado)` and `if (cortador)`. -/
def Val.truthy : Val → Bool
  | .null => false
  | .bool b => b
  | .num n => n.val != 0
  | .str s => s != ""

/-- String conversion performed by a template literal: `null` prints as `null`,
a boolean as `true` or `false`, a string as itself, and an integer of magnitude
below `2^53` in decimal digits with a leading minus sign when negative. -/
def Val.toStr : Val → String
  | .null => "null"
  | .bool b => if b then "true" else "false"
  | .num n => toString n.val
  | .str s => s

/-- Truthiness of a destructured body field: `undefined` is falsy. -/
def truthy : Option Val → Bool
  | none => false
  | some v => v.truthy

/-! ## Tables -/

/-- Row of table `pedidos`. -/
structure Pedido where
  id : Nat
  numero_factura : Val
  cliente : Val
  fecha_ingreso : Nat
  fecha_entrega : Val
  estado : Val
  cortador : Val
  deriving DecidableEq

/-- Line item as it appears in a request body (`producto`). -/
structure Producto where
  descripcion : Val
  cantidad : Val
  ingreso : Val
  egreso : Val
  total : Val
  deriving DecidableEq

/-- Row of table `productos_pedido`. -/
structure ProductoRow where
  pedido_id : Nat
  descripcion : Val
  cantidad : Val
  ingreso : Val
  egreso : Val
  total : Val
  deriving DecidableEq

/-- Modelled from the spec: the schema of the datastore is not part of the
source. The store is the relational store of the specification: two tables, an
auto-increment counter for `pedidos.id`, values kept as supplied, and no
constraint between the tables checked by the store itself. -/
structure DB where
  pedidos : List Pedido
  productos_pedido : List ProductoRow
  nextId : Nat
  deriving DecidableEq

/-- Modelled from the spec: what the source leaves to the datastore when a row
of `pedidos` is inserted, namely the value of `NOW()` and the column defaults of
`estado` and `cortador`. -/
structure Env where
  now : Nat
  estadoDefault : Val
  cortadorDefault : Val

/-- An order with its line items attached (`pedido.productos = productos`). -/
structure PedidoConProductos where
  pedido : Pedido
  productos : List ProductoRow
  deriving DecidableEq

/-! ## Connection, transaction and statements -/

/-- Statements issued on a connection. -/
inductive Stmt where
  | beginTransaction
  | insertPedido
  | updatePedido
  | deletePedido
  | deleteProductos
  | insertProducto
  | selectPedido
  | selectProductos
  | commit
  | rollback
  deriving DecidableEq

/-- Connection checked out of the pool. `db` is what the connection sees,
`snapshot` holds the tables as of `beginTransaction` while a transaction is
open, `log` the statements issued so far. -/
structure Conn where
  db : DB
  snapshot : Option DB
  log : List Stmt
  deriving DecidableEq

/-- Result of `pool.getConnection()`. -/
def getConnection (db : DB) : Conn :=
  { db := db, snapshot := none, log := [] }

/-- Modifying statement `connection.query(...)`: rejected when the oracle says
so, otherwise applied to the tables. -/
def query (fail : Nat → Bool) (s : Stmt) (f : DB → DB) (c : Conn) : Except Conn Conn :=
  if fail c.log.length then .error { c with log := c.log ++ [s] }
  else .ok { c with db := f c.db, log := c.log ++ [s] }

/-- Reading statement `connection.query(SELECT ...)`. -/
def select {α : Type} (fail : Nat → Bool) (s : Stmt) (f : DB → α) (c : Conn) :
    Except Conn (α × Conn) :=
  if fail c.log.length then .error { c with log := c.log ++ [s] }
  else .ok (f c.db, { c with log := c.log ++ [s] })

/-- Statement `connection.beginTransaction()`. -/
def beginTransaction (fail : Nat → Bool) (c : Conn) : Except Conn Conn :=
  if fail c.log.length then .error { c with log := c.log ++ [Stmt.beginTransaction] }
  else .ok { c with snapshot := some c.db, log := c.log ++ [Stmt.beginTransaction] }

/-- Statement `connection.commit()`. -/
def commit (fail : Nat → Bool) (c : Conn) : Except Conn Conn :=
  if fail c.log.length then .error { c with log := c.log ++ [Stmt.commit] }
  else .ok { c with snapshot := none, log := c.log ++ [Stmt.commit] }

/-- Statement `connection.rollback()`: the rows go back to the snapshot of an
open transaction (the auto-increment counter does not); without an open
transaction nothing changes. -/
def rollback (c : Conn) : Conn :=
  match c.snapshot with
  | some s =>
    { db := { s with nextId := c.db.nextId }, snapshot := none, log := c.log ++ [Stmt.rollback] }
  | none => { c with log := c.log ++ [Stmt.rollback] }

/-! ## SQL statements as table transformers -/

/-- Modelled from the spec: the id the datastore generates for the next row of
`pedidos` (`result.insertId`). The generation is not part of the source; as an
auto-increment column does, it hands out the counter, and the counter never lies
at or below an id the table holds. -/
def insertId (db : DB) : Nat :=
  max db.nextId (db.pedidos.foldr (fun p m => max (p.id + 1) m) 0)

/-- Statement `INSERT INTO pedidos (numero_factura, cliente, fecha_ingreso,
fecha_entrega) VALUES (?, ?, NOW(), ?)`: the row takes the generated id and is
appended to the table. -/
def insertPedido (env : Env) (numero_factura cliente fecha_entrega : Val) (db : DB) : DB :=
  { db with
    pedidos := db.pedidos ++
      [{ id := insertId db, numero_factura := numero_factura, cliente := cliente,
         fecha_ingreso := env.now, fecha_entrega := fecha_entrega,
         estado := env.estadoDefault, cortador := env.cortadorDefault }]
    nextId := insertId db + 1 }

/-- Row written by `INSERT INTO productos_pedido (pedido_id, descripcion,
cantidad, ingreso, egreso, total) VALUES (?, ?, ?, ?, ?, ?)` with the parameters
`[id, producto.descripcion, producto.cantidad, producto.ingreso, producto.egreso,
producto.total]`. -/
def toRow (id : Nat) (p : Producto) : ProductoRow :=
  { pedido_id := id, descripcion := p.descripcion, cantidad := p.cantidad,
    ingreso := p.ingreso, egreso := p.egreso, total := p.total }

/-- Table after the line-item `INSERT`. -/
def insertProducto (id : Nat) (p : Producto) (db : DB) : DB :=
  { db with productos_pedido := db.productos_pedido ++ [toRow id p] }

/-- Statement `DELETE FROM productos_pedido WHERE pedido_id = ?`. -/
def deleteProductos (id : Nat) (db : DB) : DB :=
  { db with productos_pedido := db.productos_pedido.filter (fun r => r.pedido_id != id) }

/-- Statement `DELETE FROM pedidos WHERE id = ?`. -/
def deletePedido (id : Nat) (db : DB) : DB :=
  { db with pedidos := db.pedidos.filter (fun p => p.id != id) }

/-- Rows of `SELECT * FROM pedidos WHERE id = ?`. -/
def selectPedido (id : Nat) (db : DB) : List Pedido :=
  db.pedidos.filter (fun p => p.id == id)

/-- Rows of `SELECT * FROM productos_pedido WHERE pedido_id = ?`. -/
def selectProductos (id : Nat) (db : DB) : List ProductoRow :=
  db.productos_pedido.filter (fun r => r.pedido_id == id)

/-- Updatable columns of `pedidos`. -/
inductive Column where
  | numero_factura
  | cliente
  | fecha_entrega
  | estado
  | cortador
  deriving DecidableEq

/-- One assignment `col = ?` of an `UPDATE`. -/
def Pedido.set (p : Pedido) : Column × Val → Pedido
  | (.numero_factura, v) => { p with numero_factura := v }
  | (.cliente, v) => { p with cliente := v }
  | (.fecha_entrega, v) => { p with fecha_entrega := v }
  | (.estado, v) => { p with estado := v }
  | (.cortador, v) => { p with cortador := v }

/-- Statement `UPDATE pedidos SET <assignments> WHERE id = ?`. -/
def updatePedido (id : Nat) (updateFields : List (Column × Val)) (db : DB) : DB :=
  { db with
    pedidos := db.pedidos.map (fun p => if p.id = id then updateFields.foldl Pedido.set p else p) }

/-! ## Requests, responses, events -/

/-- Body of `POST /api/pedidos`. A scalar that is absent is sent to the
datastore as `NULL`; `productos` absent is `none`. -/
structure CreateReq where
  numero_factura : Val
  cliente : Val
  fecha_entrega : Val
  productos : Option (List Producto)

/-- Body of `PUT /api/pedidos/:id`; `none` is `undefined`. -/
structure UpdateReq where
  numero_factura : Option Val
  cliente : Option Val
  fecha_entrega : Option Val
  estado : Option Val
  cortador : Option Val
  productos : Option (List Producto)

/-- Response body. -/
inductive Body where
  | pedido (p : PedidoConProductos)
  | pedidos (l : List PedidoConProductos)
  | message (m : String)
  | error (m : String)
  deriving DecidableEq

/-- HTTP response. -/
structure Response where
  status : Nat
  body : Body
  deriving DecidableEq

/-- Events of the push channel (`io.emit`). -/
inductive Event where
  | actualizacionPedidos
  | pedidoActualizado (id : Nat) (cambio : String) (pedido : PedidoConProductos)
  deriving DecidableEq

/-- What a handler leaves behind. -/
structure Outcome where
  db : DB
  log : List Stmt
  events : List Event
  response : Response
  deriving DecidableEq

/-- Whether an event is the coarse notification. -/
def Event.isCoarse : Event → Bool
  | .actualizacionPedidos => true
  | .pedidoActualizado _ _ _ => false

/-- Whether an event is the descriptive notification. -/
def Event.isDescriptive : Event → Bool
  | .actualizacionPedidos => false
  | .pedidoActualizado _ _ _ => true

/-! ## `POST /api/pedidos` -/

/-- The `for (const producto of productos)` loop of both handlers. -/
def insertProductos (fail : Nat → Bool) (id : Nat) : List Producto → Conn → Except Conn Conn
  | [], c => .ok c
  | p :: ps, c =>
    match query fail Stmt.insertProducto (insertProducto id p) c with
    | .error e => .error e
    | .ok c1 => insertProductos fail id ps c1

/-- The read-back after `commit`, common to `POST` and `PUT`:
`SELECT * FROM pedidos WHERE id = ?`, `SELECT * FROM productos_pedido WHERE
pedido_id = ?`, then `rows[0].productos = productos`, which throws a `TypeError`
when `rows` is empty. -/
def readBack (fail : Nat → Bool) (id : Nat) (c4 : Conn) :
    Except Conn (PedidoConProductos × Conn) :=
  match select fail Stmt.selectPedido (selectPedido id) c4 with
  | .error e => .error e
  | .ok (rows, c5) =>
    match select fail Stmt.selectProductos (selectProductos id) c5 with
    | .error e => .error e
    | .ok (productosDelPedido, c6) =>
      match rows.head? with
      | none => .error c6
      | some p => .ok ({ pedido := p, productos := productosDelPedido }, c6)

/-- The loop over `productos` of `POST /api/pedidos`; iterating `undefined`
throws a `TypeError`. -/
def createProductos (fail : Nat → Bool) (pedidoId : Nat) (productos : Option (List Producto))
    (c2 : Conn) : Except Conn Conn :=
  match productos with
  | none => .error c2
  | some ps => insertProductos fail pedidoId ps c2

/-- The `try` block of `POST /api/pedidos`. An exception carries the connection
as it was when thrown; `pedidoId` is `result.insertId`, the id generated for
the order row. -/
def createBody (env : Env) (fail : Nat → Bool) (req : CreateReq) (c0 : Conn) :
    Except Conn (PedidoConProductos × Conn) := do
  let c1 ← beginTransaction fail c0
  let c2 ← query fail Stmt.insertPedido
    (insertPedido env req.numero_factura req.cliente req.fecha_entrega) c1
  let c3 ← createProductos fail (insertId c1.db) req.productos c2
  let c4 ← commit fail c3
  readBack fail (insertId c1.db) c4

/-- Handler of `POST /api/pedidos`. -/
def createOrder (env : Env) (fail : Nat → Bool) (req : CreateReq) (db : DB) : Outcome :=
  match createBody env fail req (getConnection db) with
  | .ok (nuevo, c) =>
    { db := c.db, log := c.log, events := [Event.actualizacionPedidos],
      response := { status := 201, body := Body.pedido nuevo } }
  | .error c =>
    let c1 := rollback c
    { db := c1.db, log := c1.log, events := [],
      response := { status := 500, body := Body.error "Error al crear el pedido" } }

/-! ## `PUT /api/pedidos/:id` -/

/-- The five `if (x !== undefined) { updateFields.push(...); updateValues.push(x) }`. -/
def buildUpdate (req : UpdateReq) : List (Column × Val) :=
  (match req.numero_factura with | some v => [(Column.numero_factura, v)] | none => []) ++
  (match req.cliente with | some v => [(Column.cliente, v)] | none => []) ++
  (match req.fecha_entrega with | some v => [(Column.fecha_entrega, v)] | none => []) ++
  (match req.estado with | some v => [(Column.estado, v)] | none => []) ++
  (match req.cortador with | some v => [(Column.cortador, v)] | none => [])

/-- String conversion of a destructured body field inside a template literal. -/
def render : Option Val → String
  | none => "undefined"
  | some v => v.toStr

/-- Status-change message. -/
def mensajeEstado (p : Pedido) (estado : Option Val) : String :=
  "Pedido " ++ p.numero_factura.toStr ++ " - " ++ p.cliente.toStr ++
    ": Se ha actualizado el estado a " ++ render estado

/-- Cutter-assignment message. -/
def mensajeCortador (p : Pedido) (cortador : Option Val) : String :=
  "Pedido " ++ p.numero_factura.toStr ++ " - " ++ p.cliente.toStr ++
    ": Se ha asignado al cortador " ++ render cortador

/-- Computation of `mensajeCambio` from the role of the actor, the `estado` and
`cortador` of the body and the order read back. -/
def mensajeCambio (userRole : String) (estado cortador : Option Val) (p : Pedido) : String :=
  if userRole = "cortador" then
    if truthy estado then mensajeEstado p estado else ""
  else
    let m1 := if truthy estado then mensajeEstado p estado else ""
    if truthy cortador then mensajeCortador p cortador else m1

/-- The guarded `UPDATE`: `if (updateFields.length > 0) await connection.query(query, updateValues)`. -/
def updateFieldsStep (fail : Nat → Bool) (id : Nat) (req : UpdateReq) (c1 : Conn) :
    Except Conn Conn :=
  if (buildUpdate req).length > 0 then
    query fail Stmt.updatePedido (updatePedido id (buildUpdate req)) c1
  else .ok c1

/-- The line-item replacement: `if (productos && productos.length > 0)` delete
the rows of the order and insert the supplied ones. -/
def replaceProductos (fail : Nat → Bool) (id : Nat) (productos : Option (List Producto))
    (c2 : Conn) : Except Conn Conn :=
  match productos with
  | none => .ok c2
  | some ps =>
    if ps.length > 0 then
      match query fail Stmt.deleteProductos (deleteProductos id) c2 with
      | .error e => .error e
      | .ok c => insertProductos fail id ps c
    else .ok c2

/-- The `try` block of `PUT /api/pedidos/:id` up to the read-back. -/
def updateBody (fail : Nat → Bool) (id : Nat) (req : UpdateReq) (c0 : Conn) :
    Except Conn (PedidoConProductos × Conn) := do
  let c1 ← beginTransaction fail c0
  let c2 ← updateFieldsStep fail id req c1
  let c3 ← replaceProductos fail id req.productos c2
  let c4 ← commit fail c3
  readBack fail id c4

/-- Events emitted by a successful update. -/
def updateEvents (userRole : String) (id : Nat) (req : UpdateReq)
    (updated : PedidoConProductos) : List Event :=
  let m := mensajeCambio userRole req.estado req.cortador updated.pedido
  Event.actualizacionPedidos ::
    (if m ≠ "" then [Event.pedidoActualizado id m updated] else [])

/-- Handler of `PUT /api/pedidos/:id`. -/
def updateOrder (fail : Nat → Bool) (userRole : String) (id : Nat) (req : UpdateReq)
    (db : DB) : Outcome :=
  match updateBody fail id req (getConnection db) with
  | .ok (updated, c) =>
    { db := c.db, log := c.log, events := updateEvents userRole id req updated,
      response := { status := 200, body := Body.pedido updated } }
  | .error c =>
    let c1 := rollback c
    { db := c1.db, log := c1.log, events := [],
      response := { status := 500, body := Body.error "Error al actualizar el pedido" } }

/-! ## `DELETE /api/pedidos/:id` -/

/-- The `try` block of `DELETE /api/pedidos/:id`. -/
def deleteBody (fail : Nat → Bool) (id : Nat) (c0 : Conn) : Except Conn Conn := do
  let c1 ← beginTransaction fail c0
  let c2 ← query fail Stmt.deleteProductos (deleteProductos id) c1
  let c3 ← query fail Stmt.deletePedido (deletePedido id) c2
  commit fail c3

/-- Handler of `DELETE /api/pedidos/:id`. -/
def deleteOrder (fail : Nat → Bool) (id : Nat) (db : DB) : Outcome :=
  match deleteBody fail id (getConnection db) with
  | .ok c =>
    { db := c.db, log := c.log, events := [Event.actualizacionPedidos],
      response := { status := 200, body := Body.message "Pedido eliminado exitosamente" } }
  | .error c =>
    let c1 := rollback c
    { db := c1.db, log := c1.log, events := [],
      response := { status := 500, body := Body.error "Error al eliminar el pedido" } }

/-! ## `GET /api/pedidos` -/

/-- The loop `for (let pedido of pedidos)` with one `pool.query` per order; `n`
is the position of the next query. -/
def attachProductos (fail : Nat → Bool) (db : DB) :
    Nat → List Pedido → Option (List PedidoConProductos)
  | _, [] => some []
  | n, p :: ps =>
    if fail n then none
    else
      match attachProductos fail db (n + 1) ps with
      | none => none
      | some rest => some ({ pedido := p, productos := selectProductos p.id db } :: rest)

/-- Rows of `SELECT * FROM pedidos ORDER BY fecha_ingreso DESC`; rows with equal
`fecha_ingreso` keep the order of the table. -/
def selectPedidosDesc (db : DB) : List Pedido :=
  db.pedidos.insertionSort (fun a b => b.fecha_ingreso ≤ a.fecha_ingreso)

/-- Handler of `GET /api/pedidos` (and of `GET /api/pedidos-publicos`). -/
def listOrders (fail : Nat → Bool) (db : DB) : Response :=
  if fail 0 then { status := 500, body := Body.error "Error al obtener pedidos" }
  else
    match attachProductos fail db 1 (selectPedidosDesc db) with
    | none => { status := 500, body := Body.error "Error al obtener pedidos" }
    | some l => { status := 200, body := Body.pedidos l }

/-- Oracle of a run without datastore failure. -/
def noFail : Nat → Bool := fun _ => false

/-- Empty datastore. -/
def emptyDB : DB := { pedidos := [], productos_pedido := [], nextId := 1 }

/-! ## Derived tables, logs and predicates -/

/-- Tables after the statements of a committed update. -/
def updateTables (id : Nat) (req : UpdateReq) (db : DB) : DB :=
  let db1 := if (buildUpdate req).length > 0 then updatePedido id (buildUpdate req) db else db
  match req.productos with
  | none => db1
  | some ps =>
    if ps.length > 0 then
      { db1 with productos_pedido :=
          (deleteProductos id db1).productos_pedido ++ ps.map (toRow id) }
    else db1

/-- Statements of an update that meets no failure. -/
def updateLog (req : UpdateReq) : List Stmt :=
  [Stmt.beginTransaction] ++
  (if (buildUpdate req).length > 0 then [Stmt.updatePedido] else []) ++
  (match req.productos with
    | none => []
    | some ps =>
      if ps.length > 0 then
        Stmt.deleteProductos :: List.replicate ps.length Stmt.insertProducto
      else []) ++
  [Stmt.commit, Stmt.selectPedido, Stmt.selectProductos]

/-- Tables after the statements of a committed create. -/
def createTables (env : Env) (req : CreateReq) (ps : List Producto) (db : DB) : DB :=
  let db1 := insertPedido env req.numero_factura req.cliente req.fecha_entrega db
  { db1 with productos_pedido := db1.productos_pedido ++ ps.map (toRow (insertId db)) }

/-- Tables after the statements of a committed delete. -/
def deleteTables (id : Nat) (db : DB) : DB :=
  deletePedido id (deleteProductos id db)

/-- Every line item references an existing order. -/
def RefIntegrity (db : DB) : Prop :=
  ∀ r ∈ db.productos_pedido, ∃ p ∈ db.pedidos, p.id = r.pedido_id

/-- The merge the specification describes: a supplied field takes the supplied
value, an absent one keeps its value, and `id` and `fecha_ingreso` stay. -/
def mergeFields (req : UpdateReq) (p : Pedido) : Pedido :=
  { id := p.id
    numero_factura := match req.numero_factura with | some v => v | none => p.numero_factura
    cliente := match req.cliente with | some v => v | none => p.cliente
    fecha_ingreso := p.fecha_ingreso
    fecha_entrega := match req.fecha_entrega with | some v => v | none => p.fecha_entrega
    estado := match req.estado with | some v => v | none => p.estado
    cortador := match req.cortador with | some v => v | none => p.cortador }

/-- Statements of a create that meets no failure. -/
def createLog (ps : List Producto) : List Stmt :=
  [Stmt.beginTransaction, Stmt.insertPedido] ++ List.replicate ps.length Stmt.insertProducto ++
    [Stmt.commit, Stmt.selectPedido, Stmt.selectProductos]

/-- Line item of the scenario of the specification. -/
def pane : Producto :=
  ⟨Val.str "pane", Val.num ⟨2, by decide⟩, Val.num ⟨10, by decide⟩, Val.num ⟨2, by decide⟩,
   Val.num ⟨20, by decide⟩⟩

/-- Another line item. -/
def sheet : Producto :=
  ⟨Val.str "sheet", Val.num ⟨1, by decide⟩, Val.num ⟨4, by decide⟩, Val.num ⟨1, by decide⟩,
   Val.num ⟨4, by decide⟩⟩

/-- Order 5 of the scenarios. -/
def pedido5 : Pedido :=
  ⟨5, Val.str "F-1", Val.str "Acme", 100, Val.str "2024-01-31", Val.str "pending", Val.null⟩

/-- Datastore holding order 5 with one line item. -/
def db5 : DB := ⟨[pedido5], [toRow 5 pane], 6⟩

/-- Datastore settings of the samples. -/
def env0 : Env := ⟨200, Val.str "pending", Val.null⟩

/-- Body holding nothing but `productos`. -/
def soloProductos (ps : List Producto) : UpdateReq :=
  ⟨none, none, none, none, none, some ps⟩

/-- Body holding nothing but `estado`. -/
def soloEstado (e : Val) : UpdateReq :=
  ⟨none, none, none, some e, none, none⟩

/-- Body of the create scenario of the specification. -/
def crearF1 : CreateReq :=
  ⟨Val.str "F-1", Val.str "Acme", Val.str "2024-01-31", some [pane]⟩

/-- Oracle that rejects exactly the statement at position `k`. -/
def failAt (k : Nat) : Nat → Bool := fun n => n == k

/-- Truthy in the sense of JavaScript, spelled out for the JSON scalars: not
`null`, not `false`, not the number 0, not the empty string. -/
def Truthy (v : Val) : Prop :=
  v ≠ Val.null ∧ v ≠ Val.bool false ∧ (∀ n : SafeInt, v = Val.num n → n.val ≠ 0) ∧
    v ≠ Val.str ""

/-- Order 6 of the scenarios: a numeric invoice number and no client. -/
def pedido6 : Pedido :=
  ⟨6, Val.num ⟨17, by decide⟩, Val.null, 150, Val.str "2024-02-15", Val.str "pending", Val.null⟩

/-- Datastore holding orders 5 and 6 and two line items of order 5. -/
def db56 : DB := ⟨[pedido5, pedido6], [toRow 5 pane, toRow 5 sheet], 7⟩

/-- The order row `POST /api/pedidos` is to insert, as the specification
describes it: the generated id, the three supplied fields, the intake time of
the datastore and the column defaults. -/
def nuevoPedido (env : Env) (req : CreateReq) (db : DB) : Pedido :=
  { id := insertId db, numero_factura := req.numero_factura, cliente := req.cliente,
    fecha_ingreso := env.now, fecha_entrega := req.fecha_entrega,
    estado := env.estadoDefault, cortador := env.cortadorDefault }

/-! ## Lemmas on the statements -/

theorem bind_ok_iff {ε α β : Type} (x : Except ε α) (f : α → Except ε β) (b : β) :
    (x >>= f) = .ok b ↔ ∃ a, x = .ok a ∧ f a = .ok b := by
  cases x <;> simp [bind, Except.bind]

theorem bind_error_iff {ε α β : Type} (x : Except ε α) (f : α → Except ε β) (e : ε) :
    (x >>= f) = .error e ↔ x = .error e ∨ ∃ a, x = .ok a ∧ f a = .error e := by
  cases x <;> simp [bind, Except.bind]

theorem query_ok {fail : Nat → Bool} {s : Stmt} {f : DB → DB} {c c1 : Conn}
    (h : query fail s f c = .ok c1) :
    c1 = { c with db := f c.db, log := c.log ++ [s] } := by
  unfold query at h
  split at h
  · simp at h
  · simp only [Except.ok.injEq] at h
    exact h.symm

theorem query_error {fail : Nat → Bool} {s : Stmt} {f : DB → DB} {c e : Conn}
    (h : query fail s f c = .error e) : e.snapshot = c.snapshot ∧ e.db = c.db := by
  unfold query at h
  split at h
  · simp only [Except.error.injEq] at h
    subst h
    exact ⟨rfl, rfl⟩
  · simp at h

theorem beginTransaction_ok {fail : Nat → Bool} {c c1 : Conn}
    (h : beginTransaction fail c = .ok c1) :
    c1 = { c with snapshot := some c.db, log := c.log ++ [Stmt.beginTransaction] } := by
  unfold beginTransaction at h
  split at h
  · simp at h
  · simp only [Except.ok.injEq] at h
    exact h.symm

theorem beginTransaction_error {fail : Nat → Bool} {c e : Conn}
    (h : beginTransaction fail c = .error e) : e.snapshot = c.snapshot ∧ e.db = c.db := by
  unfold beginTransaction at h
  split at h
  · simp only [Except.error.injEq] at h
    subst h
    exact ⟨rfl, rfl⟩
  · simp at h

theorem commit_ok {fail : Nat → Bool} {c c1 : Conn} (h : commit fail c = .ok c1) :
    c1 = { c with snapshot := none, log := c.log ++ [Stmt.commit] } := by
  unfold commit at h
  split at h
  · simp at h
  · simp only [Except.ok.injEq] at h
    exact h.symm

theorem commit_error {fail : Nat → Bool} {c e : Conn}
    (h : commit fail c = .error e) : e.snapshot = c.snapshot ∧ e.db = c.db := by
  unfold commit at h
  split at h
  · simp only [Except.error.injEq] at h
    subst h
    exact ⟨rfl, rfl⟩
  · simp at h

theorem insertProductos_ok (fail : Nat → Bool) (id : Nat) (ps : List Producto) :
    ∀ (c c1 : Conn), insertProductos fail id ps c = .ok c1 →
      c1 = { c with
        db := { c.db with productos_pedido := c.db.productos_pedido ++ ps.map (toRow id) }
        log := c.log ++ List.replicate ps.length Stmt.insertProducto } := by
  induction ps with
  | nil =>
    intro c c1 h
    simp only [insertProductos, Except.ok.injEq] at h
    subst h
    simp
  | cons p ps ih =>
    intro c c1 h
    simp only [insertProductos] at h
    split at h
    · simp at h
    · rename_i c2 hq
      have h2 := query_ok hq
      subst h2
      rw [ih _ _ h]
      simp [insertProducto, List.replicate_succ]

theorem insertProductos_error (fail : Nat → Bool) (id : Nat) (ps : List Producto) :
    ∀ (c e : Conn), insertProductos fail id ps c = .error e → e.snapshot = c.snapshot := by
  induction ps with
  | nil => intro c e h; simp [insertProductos] at h
  | cons p ps ih =>
    intro c e h
    simp only [insertProductos] at h
    split at h
    · rename_i e1 hq
      simp only [Except.error.injEq] at h
      subst h
      exact (query_error hq).1
    · rename_i c2 hq
      have h2 := query_ok hq
      subst h2
      have h3 := ih _ _ h
      simpa using h3

theorem readBack_ok {fail : Nat → Bool} {id : Nat} {c c1 : Conn} {u : PedidoConProductos}
    (h : readBack fail id c = .ok (u, c1)) :
    (selectPedido id c.db).head? = some u.pedido ∧
    u.productos = selectProductos id c.db ∧
    c1 = { c with log := c.log ++ [Stmt.selectPedido, Stmt.selectProductos] } := by
  unfold readBack select at h
  split at h
  · simp at h
  · rename_i rows c5 h5
    split at h5
    · simp at h5
    · simp only [Except.ok.injEq, Prod.mk.injEq] at h5
      obtain ⟨hr, hc5⟩ := h5
      subst hr; subst hc5
      split at h
      · simp at h
      · rename_i prods c6 h6
        split at h6
        · simp at h6
        · simp only [Except.ok.injEq, Prod.mk.injEq] at h6
          obtain ⟨hp, hc6⟩ := h6
          subst hp; subst hc6
          split at h
          · simp at h
          · rename_i p hp
            simp only [Except.ok.injEq, Prod.mk.injEq] at h
            obtain ⟨hu, hc⟩ := h
            subst hu; subst hc
            simp [hp]

theorem readBack_error {fail : Nat → Bool} {id : Nat} {c e : Conn}
    (h : readBack fail id c = .error e) : e.snapshot = c.snapshot ∧ e.db = c.db := by
  unfold readBack select at h
  split at h
  · rename_i e1 h5
    split at h5
    · simp only [Except.error.injEq] at h5 h
      subst h5; subst h
      exact ⟨rfl, rfl⟩
    · simp at h5
  · rename_i rows c5 h5
    split at h5
    · simp at h5
    · simp only [Except.ok.injEq, Prod.mk.injEq] at h5
      obtain ⟨hr, hc5⟩ := h5
      subst hr; subst hc5
      split at h
      · rename_i e2 h6
        split at h6
        · simp only [Except.error.injEq] at h6 h
          subst h6; subst h
          exact ⟨rfl, rfl⟩
        · simp at h6
      · rename_i prods c6 h6
        split at h6
        · simp at h6
        · simp only [Except.ok.injEq, Prod.mk.injEq] at h6
          obtain ⟨hp, hc6⟩ := h6
          subst hp; subst hc6
          split at h
          · simp only [Except.error.injEq] at h
            subst h
            exact ⟨rfl, rfl⟩
          · simp at h

/-! ## Runs without datastore failure -/

theorem insertProductos_noFail {fail : Nat → Bool} (hf : ∀ n, fail n = false) (id : Nat)
    (ps : List Producto) : ∀ c : Conn, ∃ c1, insertProductos fail id ps c = .ok c1 := by
  induction ps with
  | nil => intro c; exact ⟨c, rfl⟩
  | cons p ps ih =>
    intro c
    simp only [insertProductos, query, hf, Bool.false_eq_true, if_false]
    exact ih _

theorem updateFieldsStep_noFail {fail : Nat → Bool} (hf : ∀ n, fail n = false) (id : Nat)
    (req : UpdateReq) (c : Conn) : ∃ c1, updateFieldsStep fail id req c = .ok c1 := by
  unfold updateFieldsStep
  split
  · simp [query, hf]
  · exact ⟨c, rfl⟩

theorem replaceProductos_noFail {fail : Nat → Bool} (hf : ∀ n, fail n = false) (id : Nat)
    (productos : Option (List Producto)) (c : Conn) :
    ∃ c1, replaceProductos fail id productos c = .ok c1 := by
  unfold replaceProductos
  cases productos with
  | none => exact ⟨c, rfl⟩
  | some ps =>
    by_cases hlen : ps.length > 0
    · simp only [hlen, if_true, query, hf, Bool.false_eq_true, if_false]
      exact insertProductos_noFail hf id ps _
    · simp only [hlen, if_false]
      exact ⟨c, rfl⟩

theorem readBack_noFail {fail : Nat → Bool} (hf : ∀ n, fail n = false) (id : Nat) (c : Conn)
    (p : Pedido) (hp : (selectPedido id c.db).head? = some p) :
    readBack fail id c =
      .ok (⟨p, selectProductos id c.db⟩,
           { c with log := c.log ++ [Stmt.selectPedido, Stmt.selectProductos] }) := by
  simp [readBack, select, hf, hp]

/-! ## What a committed request leaves behind -/

theorem update_commit_ok {fail : Nat → Bool} {id : Nat} {req : UpdateReq} {db : DB}
    {c1 c2 c3 c4 : Conn}
    (h1 : beginTransaction fail (getConnection db) = .ok c1)
    (h2 : updateFieldsStep fail id req c1 = .ok c2)
    (h3 : replaceProductos fail id req.productos c2 = .ok c3)
    (h4 : commit fail c3 = .ok c4) :
    c4 = { db := updateTables id req db, snapshot := none,
           log := [Stmt.beginTransaction] ++
            (if (buildUpdate req).length > 0 then [Stmt.updatePedido] else []) ++
            (match req.productos with
              | none => []
              | some ps =>
                if ps.length > 0 then
                  Stmt.deleteProductos :: List.replicate ps.length Stmt.insertProducto
                else []) ++ [Stmt.commit] } := by
  have e1 := beginTransaction_ok h1
  subst e1
  have e2 : c2 = { db := if (buildUpdate req).length > 0 then
                      updatePedido id (buildUpdate req) db else db,
                   snapshot := some db,
                   log := [Stmt.beginTransaction] ++
                     (if (buildUpdate req).length > 0 then [Stmt.updatePedido] else []) } := by
    unfold updateFieldsStep at h2
    split at h2
    · rw [query_ok h2]; simp [getConnection, *]
    · simp only [Except.ok.injEq] at h2
      subst h2; simp [getConnection, *]
  have e3 : c3 = { db := updateTables id req db, snapshot := some db,
                   log := c2.log ++ (match req.productos with
                      | none => []
                      | some ps =>
                        if ps.length > 0 then
                          Stmt.deleteProductos :: List.replicate ps.length Stmt.insertProducto
                        else []) } := by
    unfold replaceProductos at h3
    unfold updateTables
    split at h3
    · simp only [Except.ok.injEq] at h3
      subst h3; subst e2; simp [*]
    · rename_i ps hps
      split at h3
      · rename_i hlen
        split at h3
        · simp at h3
        · rename_i cq hq
          have e := query_ok hq
          subst e
          rw [insertProductos_ok _ _ _ _ _ h3]
          subst e2
          simp [hps, hlen, deleteProductos]
      · rename_i hlen
        simp only [Except.ok.injEq] at h3
        subst h3; subst e2; simp [hps, hlen]
  have e4 := commit_ok h4
  subst e4
  subst e3
  subst e2
  simp

theorem updateBody_ok {fail : Nat → Bool} {id : Nat} {req : UpdateReq} {db : DB}
    {u : PedidoConProductos} {c : Conn}
    (h : updateBody fail id req (getConnection db) = .ok (u, c)) :
    c = { db := updateTables id req db, snapshot := none, log := updateLog req } ∧
    (selectPedido id (updateTables id req db)).head? = some u.pedido ∧
    u.productos = selectProductos id (updateTables id req db) := by
  simp only [updateBody, bind_ok_iff] at h
  obtain ⟨c1, h1, c2, h2, c3, h3, c4, h4, h5⟩ := h
  have e4 := update_commit_ok h1 h2 h3 h4
  obtain ⟨r1, r2, r3⟩ := readBack_ok h5
  subst e4
  refine ⟨?_, r1, r2⟩
  rw [r3]
  simp [updateLog]

theorem updateOrder_ok {fail : Nat → Bool} {userRole : String} {id : Nat} {req : UpdateReq}
    {db : DB} (h : (updateOrder fail userRole id req db).response.status = 200) :
    ∃ p, (selectPedido id (updateTables id req db)).head? = some p ∧
      updateOrder fail userRole id req db =
        { db := updateTables id req db
          log := updateLog req
          events := updateEvents userRole id req
            ⟨p, selectProductos id (updateTables id req db)⟩
          response := ⟨200, Body.pedido ⟨p, selectProductos id (updateTables id req db)⟩⟩ } := by
  unfold updateOrder at h ⊢
  cases hb : updateBody fail id req (getConnection db) with
  | error e => rw [hb] at h; simp at h
  | ok r =>
    obtain ⟨u, c⟩ := r
    obtain ⟨hc, hp, hu⟩ := updateBody_ok hb
    refine ⟨u.pedido, hp, ?_⟩
    subst hc
    simp only
    rw [← hu]

theorem updateBody_noFail {fail : Nat → Bool} (hf : ∀ n, fail n = false) (id : Nat)
    (req : UpdateReq) (db : DB) (p : Pedido)
    (hp : (selectPedido id (updateTables id req db)).head? = some p) :
    updateBody fail id req (getConnection db) =
      .ok (⟨p, selectProductos id (updateTables id req db)⟩,
           { db := updateTables id req db, snapshot := none, log := updateLog req }) := by
  have h1 : beginTransaction fail (getConnection db) =
      .ok { db := db, snapshot := some db, log := [Stmt.beginTransaction] } := by
    simp [beginTransaction, getConnection, hf]
  obtain ⟨c2, h2⟩ := updateFieldsStep_noFail hf id req
    { db := db, snapshot := some db, log := [Stmt.beginTransaction] }
  obtain ⟨c3, h3⟩ := replaceProductos_noFail hf id req.productos c2
  have h4 : commit fail c3 = .ok { c3 with snapshot := none, log := c3.log ++ [Stmt.commit] } := by
    simp [commit, hf]
  have e4 := update_commit_ok h1 h2 h3 h4
  have h5 := readBack_noFail hf id { c3 with snapshot := none, log := c3.log ++ [Stmt.commit] } p
    (by rw [e4]; exact hp)
  simp only [updateBody, bind, Except.bind, h1, h2, h3, h4, h5]
  simp only [Conn.mk.injEq] at e4
  obtain ⟨hdb, _, hlog⟩ := e4
  rw [hdb, hlog]
  simp [updateLog]

theorem updateOrder_noFail {fail : Nat → Bool} (hf : ∀ n, fail n = false) (userRole : String)
    (id : Nat) (req : UpdateReq) (db : DB)
    (p : Pedido) (hp : (selectPedido id (updateTables id req db)).head? = some p) :
    (updateOrder fail userRole id req db).response.status = 200 := by
  simp [updateOrder, updateBody_noFail hf id req db p hp]

theorem create_commit_ok {env : Env} {fail : Nat → Bool} {req : CreateReq} {db : DB}
    {c1 c2 c3 c4 : Conn}
    (h1 : beginTransaction fail (getConnection db) = .ok c1)
    (h2 : query fail Stmt.insertPedido
      (insertPedido env req.numero_factura req.cliente req.fecha_entrega) c1 = .ok c2)
    (h3 : createProductos fail (insertId c1.db) req.productos c2 = .ok c3)
    (h4 : commit fail c3 = .ok c4) :
    ∃ ps, req.productos = some ps ∧ insertId c1.db = insertId db ∧
      c4 = { db := createTables env req ps db, snapshot := none,
             log := [Stmt.beginTransaction, Stmt.insertPedido] ++
               List.replicate ps.length Stmt.insertProducto ++ [Stmt.commit] } := by
  have e1 := beginTransaction_ok h1
  subst e1
  have e2 := query_ok h2
  subst e2
  unfold createProductos at h3
  split at h3
  · simp at h3
  · rename_i ps hps
    refine ⟨ps, hps, rfl, ?_⟩
    have e3 := insertProductos_ok _ _ _ _ _ h3
    subst e3
    rw [commit_ok h4]
    simp [getConnection, createTables]

theorem createBody_ok {env : Env} {fail : Nat → Bool} {req : CreateReq} {db : DB}
    {u : PedidoConProductos} {c : Conn}
    (h : createBody env fail req (getConnection db) = .ok (u, c)) :
    ∃ ps, req.productos = some ps ∧
      c = { db := createTables env req ps db, snapshot := none, log := createLog ps } ∧
      (selectPedido (insertId db) (createTables env req ps db)).head? = some u.pedido ∧
      u.productos = selectProductos (insertId db) (createTables env req ps db) := by
  simp only [createBody, bind_ok_iff] at h
  obtain ⟨c1, h1, c2, h2, c3, h3, c4, h4, h5⟩ := h
  obtain ⟨ps, hps, hid, e4⟩ := create_commit_ok h1 h2 h3 h4
  rw [hid] at h5
  obtain ⟨r1, r2, r3⟩ := readBack_ok h5
  subst e4
  refine ⟨ps, hps, ?_, r1, r2⟩
  rw [r3]
  simp [createLog]

theorem createOrder_ok {env : Env} {fail : Nat → Bool} {req : CreateReq} {db : DB}
    (h : (createOrder env fail req db).response.status = 201) :
    ∃ ps p, req.productos = some ps ∧
      (selectPedido (insertId db) (createTables env req ps db)).head? = some p ∧
      createOrder env fail req db =
        { db := createTables env req ps db
          log := createLog ps
          events := [Event.actualizacionPedidos]
          response :=
            ⟨201, Body.pedido ⟨p, selectProductos (insertId db) (createTables env req ps db)⟩⟩ } := by
  unfold createOrder at h ⊢
  cases hb : createBody env fail req (getConnection db) with
  | error e => rw [hb] at h; simp at h
  | ok r =>
    obtain ⟨u, c⟩ := r
    obtain ⟨ps, hps, hc, hp, hu⟩ := createBody_ok hb
    refine ⟨ps, u.pedido, hps, hp, ?_⟩
    subst hc
    simp only
    rw [← hu]

theorem createBody_noFail {fail : Nat → Bool} (hf : ∀ n, fail n = false) (env : Env)
    (req : CreateReq) (ps : List Producto) (hps : req.productos = some ps) (db : DB) (p : Pedido)
    (hp : (selectPedido (insertId db) (createTables env req ps db)).head? = some p) :
    createBody env fail req (getConnection db) =
      .ok (⟨p, selectProductos (insertId db) (createTables env req ps db)⟩,
           { db := createTables env req ps db, snapshot := none, log := createLog ps }) := by
  have h1 : beginTransaction fail (getConnection db) =
      .ok { db := db, snapshot := some db, log := [Stmt.beginTransaction] } := by
    simp [beginTransaction, getConnection, hf]
  have h2 : query fail Stmt.insertPedido
      (insertPedido env req.numero_factura req.cliente req.fecha_entrega)
      { db := db, snapshot := some db, log := [Stmt.beginTransaction] } =
      .ok { db := insertPedido env req.numero_factura req.cliente req.fecha_entrega db,
            snapshot := some db, log := [Stmt.beginTransaction, Stmt.insertPedido] } := by
    simp [query, hf]
  obtain ⟨c3, h3i⟩ := insertProductos_noFail hf (insertId db) ps
    { db := insertPedido env req.numero_factura req.cliente req.fecha_entrega db,
      snapshot := some db, log := [Stmt.beginTransaction, Stmt.insertPedido] }
  have h3 : createProductos fail
      (insertId ({ db := db, snapshot := some db, log := [Stmt.beginTransaction] } : Conn).db)
      req.productos
      { db := insertPedido env req.numero_factura req.cliente req.fecha_entrega db,
        snapshot := some db, log := [Stmt.beginTransaction, Stmt.insertPedido] } = .ok c3 := by
    simp only [createProductos, hps]
    exact h3i
  have h4 : commit fail c3 = .ok { c3 with snapshot := none, log := c3.log ++ [Stmt.commit] } := by
    simp [commit, hf]
  obtain ⟨ps1, hps1, _, e4⟩ := create_commit_ok h1 h2 h3 h4
  rw [hps] at hps1
  simp only [Option.some.injEq] at hps1
  subst hps1
  have h5 := readBack_noFail hf (insertId db)
    { c3 with snapshot := none, log := c3.log ++ [Stmt.commit] } p (by rw [e4]; exact hp)
  simp only [createBody, bind, Except.bind, h1, h2, h3, h4, h5]
  simp only [Conn.mk.injEq] at e4
  obtain ⟨hdb, _, hlog⟩ := e4
  rw [hdb, hlog]
  simp [createLog]

theorem deleteBody_ok {fail : Nat → Bool} {id : Nat} {db : DB} {c : Conn}
    (h : deleteBody fail id (getConnection db) = .ok c) :
    c = { db := deleteTables id db, snapshot := none,
          log := [Stmt.beginTransaction, Stmt.deleteProductos, Stmt.deletePedido, Stmt.commit] } := by
  simp only [deleteBody, bind_ok_iff] at h
  obtain ⟨c1, h1, c2, h2, c3, h3, h4⟩ := h
  rw [commit_ok h4, query_ok h3, query_ok h2, beginTransaction_ok h1]
  simp [getConnection, deleteTables]

theorem deleteOrder_ok {fail : Nat → Bool} {id : Nat} {db : DB}
    (h : (deleteOrder fail id db).response.status = 200) :
    deleteOrder fail id db =
      { db := deleteTables id db
        log := [Stmt.beginTransaction, Stmt.deleteProductos, Stmt.deletePedido, Stmt.commit]
        events := [Event.actualizacionPedidos]
        response := ⟨200, Body.message "Pedido eliminado exitosamente"⟩ } := by
  unfold deleteOrder at h ⊢
  cases hb : deleteBody fail id (getConnection db) with
  | error e => rw [hb] at h; simp at h
  | ok c =>
    have hc := deleteBody_ok hb
    subst hc
    rfl

theorem deleteOrder_noFail {fail : Nat → Bool} (hf : ∀ n, fail n = false) (id : Nat) (db : DB) :
    deleteOrder fail id db =
      { db := deleteTables id db
        log := [Stmt.beginTransaction, Stmt.deleteProductos, Stmt.deletePedido, Stmt.commit]
        events := [Event.actualizacionPedidos]
        response := ⟨200, Body.message "Pedido eliminado exitosamente"⟩ } := by
  apply deleteOrder_ok
  simp [deleteOrder, deleteBody, bind, Except.bind, beginTransaction, query, commit, hf]

/-! ## The list handler -/

theorem attachProductos_pedidos (fail : Nat → Bool) (db : DB) (ps : List Pedido) :
    ∀ (n : Nat) (l : List PedidoConProductos), attachProductos fail db n ps = some l →
      l = ps.map (fun p => ⟨p, selectProductos p.id db⟩) := by
  induction ps with
  | nil => intro n l h; simp [attachProductos] at h; simp [h]
  | cons p ps ih =>
    intro n l h
    simp only [attachProductos] at h
    split at h
    · simp at h
    · split at h
      · simp at h
      · rename_i rest hrest
        simp only [Option.some.injEq] at h
        subst h
        rw [ih _ _ hrest]
        simp

theorem attachProductos_noFail {fail : Nat → Bool} (hf : ∀ n, fail n = false) (db : DB)
    (ps : List Pedido) : ∀ n : Nat,
      attachProductos fail db n ps = some (ps.map (fun p => ⟨p, selectProductos p.id db⟩)) := by
  induction ps with
  | nil => intro n; simp [attachProductos]
  | cons p ps ih => intro n; simp [attachProductos, hf, ih]

theorem listOrders_ok {fail : Nat → Bool} {db : DB} {l : List PedidoConProductos}
    (h : listOrders fail db = ⟨200, Body.pedidos l⟩) :
    l = (selectPedidosDesc db).map (fun p => ⟨p, selectProductos p.id db⟩) := by
  unfold listOrders at h
  split at h
  · simp at h
  · split at h
    · simp at h
    · rename_i l1 hl
      simp only [Response.mk.injEq, Body.pedidos.injEq, true_and] at h
      subst h
      exact attachProductos_pedidos _ _ _ _ _ hl

theorem listOrders_noFail {fail : Nat → Bool} (hf : ∀ n, fail n = false) (db : DB) :
    listOrders fail db =
      ⟨200, Body.pedidos ((selectPedidosDesc db).map (fun p => ⟨p, selectProductos p.id db⟩))⟩ := by
  simp [listOrders, hf, attachProductos_noFail hf]

theorem mem_selectPedidosDesc (db : DB) (p : Pedido) :
    p ∈ selectPedidosDesc db ↔ p ∈ db.pedidos := by
  unfold selectPedidosDesc
  exact (List.perm_insertionSort _ _).mem_iff

/-! ## Tables after an update -/

theorem foldl_set_buildUpdate (req : UpdateReq) (p : Pedido) :
    (buildUpdate req).foldl Pedido.set p = mergeFields req p := by
  obtain ⟨nf, cl, fe, es, co, ps⟩ := req
  cases nf <;> cases cl <;> cases fe <;> cases es <;> cases co <;> rfl

theorem updateTables_pedidos (id : Nat) (req : UpdateReq) (db : DB) :
    (updateTables id req db).pedidos =
      db.pedidos.map (fun p => if p.id = id then mergeFields req p else p) := by
  have h1 : (if (buildUpdate req).length > 0 then updatePedido id (buildUpdate req) db
      else db).pedidos = db.pedidos.map (fun p => if p.id = id then mergeFields req p else p) := by
    split
    · simp [updatePedido, foldl_set_buildUpdate]
    · rename_i hlen
      have hnil : buildUpdate req = [] := by
        cases hb : buildUpdate req with
        | nil => rfl
        | cons a l => rw [hb] at hlen; simp at hlen
      have hm : ∀ p : Pedido, mergeFields req p = p := by
        intro p
        rw [← foldl_set_buildUpdate, hnil]
        rfl
      simp [hm]
  unfold updateTables
  simp only
  split
  · exact h1
  · split
    · exact h1
    · exact h1

theorem updateTables_productos (id : Nat) (req : UpdateReq) (db : DB) :
    (updateTables id req db).productos_pedido =
      match req.productos with
      | none => db.productos_pedido
      | some ps =>
        if ps.length > 0 then
          db.productos_pedido.filter (fun r => r.pedido_id != id) ++ ps.map (toRow id)
        else db.productos_pedido := by
  have h1 : (if (buildUpdate req).length > 0 then updatePedido id (buildUpdate req) db
      else db).productos_pedido = db.productos_pedido := by
    split <;> rfl
  unfold updateTables
  simp only
  split
  · exact h1
  · split
    · simp only [deleteProductos, h1]
    · exact h1

theorem selectProductos_replaced (id j : Nat) (rows : List ProductoRow) (ps : List Producto) :
    (rows.filter (fun r => r.pedido_id != id) ++ ps.map (toRow id)).filter
        (fun r => r.pedido_id == j) =
      if j = id then ps.map (toRow id) else rows.filter (fun r => r.pedido_id == j) := by
  rw [List.filter_append, List.filter_filter]
  by_cases hj : j = id
  · subst hj
    have h1 : rows.filter (fun r => (r.pedido_id == j && r.pedido_id != j)) = [] := by
      rw [List.filter_eq_nil_iff]
      intro r _
      simp
    have h2 : (ps.map (toRow j)).filter (fun r => r.pedido_id == j) = ps.map (toRow j) := by
      rw [List.filter_eq_self]
      intro r hr
      rw [List.mem_map] at hr
      obtain ⟨q, _, hq⟩ := hr
      subst hq
      simp [toRow]
    simp [h1, h2]
  · have h1 : rows.filter (fun r => (r.pedido_id == j && r.pedido_id != id)) =
        rows.filter (fun r => r.pedido_id == j) := by
      apply List.filter_congr
      intro r _
      by_cases hr : r.pedido_id = j
      · simp [hr, hj]
      · simp [hr]
    have h2 : (ps.map (toRow id)).filter (fun r => r.pedido_id == j) = [] := by
      rw [List.filter_eq_nil_iff]
      intro r hr
      rw [List.mem_map] at hr
      obtain ⟨q, _, hq⟩ := hr
      subst hq
      simp [toRow, Ne.symm hj]
    simp [h1, h2, hj]

/-! ## Fields and line items after an update -/

theorem updateOrder_ok_exists {fail : Nat → Bool} {userRole : String} {id : Nat}
    {req : UpdateReq} {db : DB}
    (h : (updateOrder fail userRole id req db).response.status = 200) :
    ∃ p ∈ db.pedidos, p.id = id := by
  obtain ⟨p, hp, _⟩ := updateOrder_ok h
  have hmem := List.mem_of_mem_head? hp
  simp only [selectPedido, List.mem_filter, beq_iff_eq] at hmem
  obtain ⟨hin, hid⟩ := hmem
  rw [updateTables_pedidos, List.mem_map] at hin
  obtain ⟨q, hq, hqp⟩ := hin
  refine ⟨q, hq, ?_⟩
  by_cases hqi : q.id = id
  · exact hqi
  · rw [if_neg hqi] at hqp
    rw [hqp]
    exact hid

/-- C1. A successful `PUT /api/pedidos/:id` merges the supplied fields into the
order: every order with that id becomes `mergeFields req` of itself (supplied
fields take the supplied value, absent ones and `fecha_ingreso` keep theirs),
every other order is untouched, `fecha_ingreso` changes for no order; a body
holding only `estado = "done"` changes nothing but `estado` and leaves the line
items as they were; and when no field is supplied no `UPDATE` is issued. -/
theorem C1_update_merges_supplied_fields (fail : Nat → Bool) (userRole : String) (id : Nat)
    (req : UpdateReq) (db : DB)
    (h : (updateOrder fail userRole id req db).response.status = 200) :
    (∃ p ∈ db.pedidos, p.id = id) ∧
    (updateOrder fail userRole id req db).db.pedidos =
      db.pedidos.map (fun p => if p.id = id then mergeFields req p else p) ∧
    (updateOrder fail userRole id req db).db.pedidos.map (fun p => p.fecha_ingreso) =
      db.pedidos.map (fun p => p.fecha_ingreso) ∧
    (req = ⟨none, none, none, some (Val.str "done"), none, none⟩ →
      (updateOrder fail userRole id req db).db.pedidos =
        db.pedidos.map (fun p => if p.id = id then { p with estado := Val.str "done" } else p) ∧
      (updateOrder fail userRole id req db).db.productos_pedido = db.productos_pedido) ∧
    (req.numero_factura = none → req.cliente = none → req.fecha_entrega = none →
      req.estado = none → req.cortador = none →
      Stmt.updatePedido ∉ (updateOrder fail userRole id req db).log ∧
      (updateOrder fail userRole id req db).db.pedidos = db.pedidos) := by
  obtain ⟨p, hp, heq⟩ := updateOrder_ok h
  rw [heq]
  simp only
  have hped := updateTables_pedidos id req db
  refine ⟨?_, hped, ?_, ?_, ?_⟩
  · exact updateOrder_ok_exists h
  · rw [hped, List.map_map]
    apply List.map_congr_left
    intro q _
    by_cases hqi : q.id = id
    · simp [hqi, mergeFields]
    · simp [hqi]
  · intro hreq
    subst hreq
    refine ⟨?_, ?_⟩
    · rw [hped]; rfl
    · rw [updateTables_productos]
  · intro h1 h2 h3 h4 h5
    have hnil : buildUpdate req = [] := by simp [buildUpdate, h1, h2, h3, h4, h5]
    refine ⟨?_, ?_⟩
    · simp only [updateLog, hnil]
      cases req.productos with
      | none => simp
      | some ps =>
        by_cases hlen : ps.length > 0
        · simp [hlen, List.mem_replicate]
        · simp [hlen]
    · rw [hped]
      have hm : ∀ q : Pedido, mergeFields req q = q := by
        intro q
        simp [mergeFields, h1, h2, h3, h4, h5]
      simp [hm]

/-- C2. After a successful `PUT /api/pedidos/:id` with a non-empty `productos`
the line items of the order are exactly the supplied list, item by item with
the supplied `descripcion`, `cantidad`, `ingreso`, `egreso` and `total` and with
`pedido_id` the id of the order, as many as supplied, and no earlier row of
the order is left; with `productos` absent or empty the table of line items is
what it was; in both cases the line items of every other order are what they
were. -/
theorem C2_update_replaces_line_items (fail : Nat → Bool) (userRole : String) (id : Nat)
    (req : UpdateReq) (db : DB)
    (h : (updateOrder fail userRole id req db).response.status = 200) :
    (∀ ps, req.productos = some ps → ps ≠ [] →
      (updateOrder fail userRole id req db).db.productos_pedido.filter
          (fun r => r.pedido_id == id) =
        ps.map (fun p =>
          (⟨id, p.descripcion, p.cantidad, p.ingreso, p.egreso, p.total⟩ : ProductoRow)) ∧
      ((updateOrder fail userRole id req db).db.productos_pedido.filter
          (fun r => r.pedido_id == id)).length = ps.length ∧
      (updateOrder fail userRole id req db).db.productos_pedido =
        db.productos_pedido.filter (fun r => r.pedido_id != id) ++
          ps.map (fun p =>
            (⟨id, p.descripcion, p.cantidad, p.ingreso, p.egreso, p.total⟩ : ProductoRow))) ∧
    (req.productos = none ∨ req.productos = some [] →
      (updateOrder fail userRole id req db).db.productos_pedido = db.productos_pedido) ∧
    (∀ j, j ≠ id →
      (updateOrder fail userRole id req db).db.productos_pedido.filter
          (fun r => r.pedido_id == j) =
        db.productos_pedido.filter (fun r => r.pedido_id == j)) := by
  have hrow : (fun p : Producto =>
      (⟨id, p.descripcion, p.cantidad, p.ingreso, p.egreso, p.total⟩ : ProductoRow)) =
      toRow id := rfl
  rw [hrow]
  obtain ⟨p, hp, heq⟩ := updateOrder_ok h
  rw [heq]
  simp only
  have hprod := updateTables_productos id req db
  refine ⟨?_, ?_, ?_⟩
  · intro ps hps hne
    have hlen : ps.length > 0 := List.length_pos.mpr hne
    rw [hps] at hprod
    simp only [hlen, if_true] at hprod
    have hsel : (updateTables id req db).productos_pedido.filter (fun r => r.pedido_id == id) =
        ps.map (toRow id) := by
      rw [hprod, selectProductos_replaced]
      simp
    refine ⟨hsel, ?_, hprod⟩
    rw [hsel, List.length_map]
  · intro hps
    rcases hps with hps | hps
    · rw [hps] at hprod
      exact hprod
    · rw [hps] at hprod
      simpa using hprod
  · intro j hj
    rw [hprod]
    cases req.productos with
    | none => rfl
    | some ps =>
      by_cases hlen : ps.length > 0
      · simp only [hlen, if_true]
        rw [selectProductos_replaced]
        simp [hj]
      · simp only [hlen, if_false]

/-! ## Notifications -/

theorem mensajeEstado_ne_empty (p : Pedido) (estado : Option Val) : mensajeEstado p estado ≠ "" := by
  intro h
  have hl := congrArg String.length h
  have h7 : "Pedido ".length = 7 := by decide
  have h0 : "".length = 0 := by decide
  simp only [mensajeEstado, String.length_append, h7, h0] at hl
  omega

theorem mensajeCortador_ne_empty (p : Pedido) (cortador : Option Val) :
    mensajeCortador p cortador ≠ "" := by
  intro h
  have hl := congrArg String.length h
  have h7 : "Pedido ".length = 7 := by decide
  have h0 : "".length = 0 := by decide
  simp only [mensajeCortador, String.length_append, h7, h0] at hl
  omega

theorem truthy_of_Truthy {v : Val} (h : Truthy v) : v.truthy = true := by
  obtain ⟨h1, h2, h3, h4⟩ := h
  cases v with
  | null => exact absurd rfl h1
  | bool b =>
    cases b with
    | false => exact absurd rfl h2
    | true => rfl
  | num n =>
    have hn := h3 n rfl
    simp [Val.truthy, hn]
  | str s =>
    have hs : s ≠ "" := fun hs => h4 (by rw [hs])
    simp [Val.truthy, hs]

theorem mergeFields_id (req : UpdateReq) (p : Pedido) : (mergeFields req p).id = p.id := rfl

theorem selectPedido_updateTables (id : Nat) (req : UpdateReq) (db : DB) :
    selectPedido id (updateTables id req db) =
      (db.pedidos.filter (fun q => q.id == id)).map (mergeFields req) := by
  unfold selectPedido
  rw [updateTables_pedidos]
  induction db.pedidos with
  | nil => rfl
  | cons q l ih =>
    by_cases hq : q.id = id
    · simp [List.filter_cons, hq, mergeFields_id, ih]
    · simp [List.filter_cons, hq, ih]

/-- A successful update answers with, and hands to the notifier, the order the
id designates after the merge of the supplied fields, as the table now holds it,
together with the line items the table now holds under the id. -/
theorem updateOrder_ok_snapshot {fail : Nat → Bool} {userRole : String} {id : Nat}
    {req : UpdateReq} {db : DB}
    (h : (updateOrder fail userRole id req db).response.status = 200) :
    ∃ (p : Pedido) (u : PedidoConProductos),
      (db.pedidos.filter (fun q => q.id == id)).head? = some p ∧
      u.pedido = mergeFields req p ∧
      u.pedido ∈ (updateOrder fail userRole id req db).db.pedidos ∧
      u.productos = (updateOrder fail userRole id req db).db.productos_pedido.filter
        (fun r => r.pedido_id == id) ∧
      (updateOrder fail userRole id req db).response = ⟨200, Body.pedido u⟩ ∧
      (updateOrder fail userRole id req db).events = updateEvents userRole id req u := by
  obtain ⟨q, hq, heq⟩ := updateOrder_ok h
  rw [heq]
  have hsel := selectPedido_updateTables id req db
  rw [hsel, List.head?_map] at hq
  cases hh : (db.pedidos.filter (fun q => q.id == id)).head? with
  | none => rw [hh] at hq; simp at hq
  | some p =>
    rw [hh] at hq
    simp only [Option.map_some', Option.some.injEq] at hq
    refine ⟨p, ⟨q, selectProductos id (updateTables id req db)⟩, rfl, hq.symm, ?_, rfl, rfl, rfl⟩
    have hmem := List.mem_of_mem_head? hh
    rw [List.mem_filter] at hmem
    simp only [updateTables_pedidos, List.mem_map]
    refine ⟨p, hmem.1, ?_⟩
    have hid : p.id = id := by simpa using hmem.2
    rw [if_pos hid, hq]

/-- C7 as amended. A successful update by an actor of role `cortador` whose body
holds an `estado` that is truthy (not `null`, not `false`, not 0, not the empty
string) emits the coarse notification and exactly one `pedidoActualizado`. The
event carries the id and the snapshot `u`, which is the order the id designates
with the supplied fields merged in, as the table now holds it, with the line
items now stored under the id, and which is also the body of the response; its
message is the status message built from the invoice number and client of `u`
and from the supplied `estado`, whatever `cortador` the body holds. -/
theorem C7_cortador_status_message (fail : Nat → Bool) (id : Nat) (req : UpdateReq) (db : DB)
    (e : Val) (he : req.estado = some e) (ht : Truthy e)
    (h : (updateOrder fail "cortador" id req db).response.status = 200) :
    ∃ (p : Pedido) (u : PedidoConProductos),
      (db.pedidos.filter (fun q => q.id == id)).head? = some p ∧
      u.pedido = mergeFields req p ∧
      u.pedido ∈ (updateOrder fail "cortador" id req db).db.pedidos ∧
      u.productos = (updateOrder fail "cortador" id req db).db.productos_pedido.filter
        (fun r => r.pedido_id == id) ∧
      (updateOrder fail "cortador" id req db).response = ⟨200, Body.pedido u⟩ ∧
      (updateOrder fail "cortador" id req db).events =
        [Event.actualizacionPedidos,
         Event.pedidoActualizado id
          ("Pedido " ++ u.pedido.numero_factura.toStr ++ " - " ++ u.pedido.cliente.toStr ++
            ": Se ha actualizado el estado a " ++ e.toStr) u] ∧
      ((updateOrder fail "cortador" id req db).events.filter Event.isDescriptive).length = 1 ∧
      (∀ a b c : String, u.pedido.numero_factura = Val.str a → u.pedido.cliente = Val.str b →
        e = Val.str c →
        (updateOrder fail "cortador" id req db).events =
          [Event.actualizacionPedidos,
           Event.pedidoActualizado id
            ("Pedido " ++ a ++ " - " ++ b ++ ": Se ha actualizado el estado a " ++ c) u]) := by
  obtain ⟨p, u, h1, h2, h3, h4, h5, h6⟩ := updateOrder_ok_snapshot h
  have hm : mensajeCambio "cortador" req.estado req.cortador u.pedido =
      mensajeEstado u.pedido (some e) := by
    simp [mensajeCambio, he, truthy, truthy_of_Truthy ht]
  have hne := mensajeEstado_ne_empty u.pedido (some e)
  have hev : (updateOrder fail "cortador" id req db).events =
      [Event.actualizacionPedidos,
       Event.pedidoActualizado id
        ("Pedido " ++ u.pedido.numero_factura.toStr ++ " - " ++ u.pedido.cliente.toStr ++
          ": Se ha actualizado el estado a " ++ e.toStr) u] := by
    rw [h6]
    simp only [updateEvents, hm, hne, ne_eq, not_false_eq_true, if_true]
    rfl
  refine ⟨p, u, h1, h2, h3, h4, h5, hev, ?_, ?_⟩
  · rw [hev]
    simp [Event.isDescriptive]
  · intro a b c ha hb hc
    rw [hev, ha, hb, hc]
    rfl

/-- C8 as amended. A successful update by an actor whose role is not `cortador`
whose body holds a `cortador` that is truthy (not `null`, not `false`, not 0,
not the empty string) emits exactly one `pedidoActualizado`, whether or not
`estado` is supplied. The event carries the id and the snapshot `u`, which is
the order the id designates with the supplied fields merged in, as the table now
holds it, with the line items now stored under the id, and which is also the
body of the response; its message is the cutter-assignment message built from
the invoice number and client of `u` and from the supplied `cortador`. -/
theorem C8_cutter_message_wins (fail : Nat → Bool) (userRole : String) (id : Nat)
    (req : UpdateReq) (db : DB) (k : Val)
    (hrole : userRole ≠ "cortador") (hk : req.cortador = some k) (ht : Truthy k)
    (h : (updateOrder fail userRole id req db).response.status = 200) :
    ∃ (p : Pedido) (u : PedidoConProductos),
      (db.pedidos.filter (fun q => q.id == id)).head? = some p ∧
      u.pedido = mergeFields req p ∧
      u.pedido ∈ (updateOrder fail userRole id req db).db.pedidos ∧
      u.productos = (updateOrder fail userRole id req db).db.productos_pedido.filter
        (fun r => r.pedido_id == id) ∧
      (updateOrder fail userRole id req db).response = ⟨200, Body.pedido u⟩ ∧
      (updateOrder fail userRole id req db).events =
        [Event.actualizacionPedidos,
         Event.pedidoActualizado id
          ("Pedido " ++ u.pedido.numero_factura.toStr ++ " - " ++ u.pedido.cliente.toStr ++
            ": Se ha asignado al cortador " ++ k.toStr) u] ∧
      ((updateOrder fail userRole id req db).events.filter Event.isDescriptive).length = 1 ∧
      (∀ a b c : String, u.pedido.numero_factura = Val.str a → u.pedido.cliente = Val.str b →
        k = Val.str c →
        (updateOrder fail userRole id req db).events =
          [Event.actualizacionPedidos,
           Event.pedidoActualizado id
            ("Pedido " ++ a ++ " - " ++ b ++ ": Se ha asignado al cortador " ++ c) u]) := by
  obtain ⟨p, u, h1, h2, h3, h4, h5, h6⟩ := updateOrder_ok_snapshot h
  have hm : mensajeCambio userRole req.estado req.cortador u.pedido =
      mensajeCortador u.pedido (some k) := by
    simp [mensajeCambio, hrole, hk, truthy, truthy_of_Truthy ht]
  have hne := mensajeCortador_ne_empty u.pedido (some k)
  have hev : (updateOrder fail userRole id req db).events =
      [Event.actualizacionPedidos,
       Event.pedidoActualizado id
        ("Pedido " ++ u.pedido.numero_factura.toStr ++ " - " ++ u.pedido.cliente.toStr ++
          ": Se ha asignado al cortador " ++ k.toStr) u] := by
    rw [h6]
    simp only [updateEvents, hm, hne, ne_eq, not_false_eq_true, if_true]
    rfl
  refine ⟨p, u, h1, h2, h3, h4, h5, hev, ?_, ?_⟩
  · rw [hev]
    simp [Event.isDescriptive]
  · intro a b c ha hb hc
    rw [hev, ha, hb, hc]
    rfl

/-- C9 as amended. A successful update by an actor whose role is not `cortador`
whose body holds an `estado` that is truthy (not `null`, not `false`, not 0, not
the empty string) and no `cortador` emits a `pedidoActualizado`. The event
carries the id and the snapshot `u`, which is the order the id designates with
the supplied fields merged in, as the table now holds it, with the line items
now stored under the id, and which is also the body of the response; its message
is the status message built from the invoice number and client of `u` and from
the supplied `estado`. -/
theorem C9_status_message (fail : Nat → Bool) (userRole : String) (id : Nat)
    (req : UpdateReq) (db : DB) (e : Val)
    (hrole : userRole ≠ "cortador") (he : req.estado = some e) (ht : Truthy e)
    (hk : req.cortador = none)
    (h : (updateOrder fail userRole id req db).response.status = 200) :
    ∃ (p : Pedido) (u : PedidoConProductos),
      (db.pedidos.filter (fun q => q.id == id)).head? = some p ∧
      u.pedido = mergeFields req p ∧
      u.pedido ∈ (updateOrder fail userRole id req db).db.pedidos ∧
      u.productos = (updateOrder fail userRole id req db).db.productos_pedido.filter
        (fun r => r.pedido_id == id) ∧
      (updateOrder fail userRole id req db).response = ⟨200, Body.pedido u⟩ ∧
      (updateOrder fail userRole id req db).events =
        [Event.actualizacionPedidos,
         Event.pedidoActualizado id
          ("Pedido " ++ u.pedido.numero_factura.toStr ++ " - " ++ u.pedido.cliente.toStr ++
            ": Se ha actualizado el estado a " ++ e.toStr) u] ∧
      (∀ a b c : String, u.pedido.numero_factura = Val.str a → u.pedido.cliente = Val.str b →
        e = Val.str c →
        (updateOrder fail userRole id req db).events =
          [Event.actualizacionPedidos,
           Event.pedidoActualizado id
            ("Pedido " ++ a ++ " - " ++ b ++ ": Se ha actualizado el estado a " ++ c) u]) := by
  obtain ⟨p, u, h1, h2, h3, h4, h5, h6⟩ := updateOrder_ok_snapshot h
  have hm : mensajeCambio userRole req.estado req.cortador u.pedido =
      mensajeEstado u.pedido (some e) := by
    simp [mensajeCambio, hrole, he, hk, truthy, truthy_of_Truthy ht]
  have hne := mensajeEstado_ne_empty u.pedido (some e)
  have hev : (updateOrder fail userRole id req db).events =
      [Event.actualizacionPedidos,
       Event.pedidoActualizado id
        ("Pedido " ++ u.pedido.numero_factura.toStr ++ " - " ++ u.pedido.cliente.toStr ++
          ": Se ha actualizado el estado a " ++ e.toStr) u] := by
    rw [h6]
    simp only [updateEvents, hm, hne, ne_eq, not_false_eq_true, if_true]
    rfl
  refine ⟨p, u, h1, h2, h3, h4, h5, hev, ?_⟩
  intro a b c ha hb hc
  rw [hev, ha, hb, hc]
  rfl

/-- C10. A create, update or delete that responds with success emits the coarse
notification `actualizacionPedidos` exactly once, and a successful update whose
body holds neither `estado` nor `cortador` emits no `pedidoActualizado`. -/
theorem C10_coarse_once_descriptive_only_on_change :
    (∀ (env : Env) (fail : Nat → Bool) (req : CreateReq) (db : DB),
      (createOrder env fail req db).response.status = 201 →
      ((createOrder env fail req db).events.filter Event.isCoarse).length = 1) ∧
    (∀ (fail : Nat → Bool) (userRole : String) (id : Nat) (req : UpdateReq) (db : DB),
      (updateOrder fail userRole id req db).response.status = 200 →
      ((updateOrder fail userRole id req db).events.filter Event.isCoarse).length = 1) ∧
    (∀ (fail : Nat → Bool) (id : Nat) (db : DB),
      (deleteOrder fail id db).response.status = 200 →
      ((deleteOrder fail id db).events.filter Event.isCoarse).length = 1) ∧
    (∀ (fail : Nat → Bool) (userRole : String) (id : Nat) (req : UpdateReq) (db : DB),
      (updateOrder fail userRole id req db).response.status = 200 →
      req.estado = none → req.cortador = none →
      (updateOrder fail userRole id req db).events = [Event.actualizacionPedidos] ∧
      (updateOrder fail userRole id req db).events.filter Event.isDescriptive = []) := by
  refine ⟨?_, ?_, ?_, ?_⟩
  · intro env fail req db h
    obtain ⟨ps, p, _, _, heq⟩ := createOrder_ok h
    rw [heq]
    simp [Event.isCoarse]
  · intro fail userRole id req db h
    obtain ⟨p, _, heq⟩ := updateOrder_ok h
    rw [heq]
    simp only [updateEvents]
    split <;> simp [Event.isCoarse]
  · intro fail id db h
    rw [deleteOrder_ok h]
    simp [Event.isCoarse]
  · intro fail userRole id req db h he hk
    obtain ⟨p, _, heq⟩ := updateOrder_ok h
    rw [heq]
    have hm : mensajeCambio userRole req.estado req.cortador p = "" := by
      simp [mensajeCambio, he, hk, truthy]
    simp [updateEvents, hm, Event.isDescriptive]

/-! ## Concrete runs -/

/-- C1 at order 5 with a body holding only `estado = "done"`. -/
theorem C1_witness :
    (updateOrder noFail "admin" 5 (soloEstado (Val.str "done")) db5).response.status = 200 ∧
    ((updateOrder noFail "admin" 5 (soloEstado (Val.str "done")) db5).db.pedidos =
        db5.pedidos.map
          (fun p => if p.id = 5 then { p with estado := Val.str "done" } else p) ∧
      (updateOrder noFail "admin" 5 (soloEstado (Val.str "done")) db5).db.productos_pedido =
        db5.productos_pedido) :=
  ⟨by decide,
   (C1_update_merges_supplied_fields noFail "admin" 5 (soloEstado (Val.str "done")) db5
      (by decide)).2.2.2.1 rfl⟩

/-- C2 at order 5, whose one line item is replaced by two. -/
theorem C2_witness :
    (updateOrder noFail "admin" 5 (soloProductos [sheet, pane]) db5).response.status = 200 ∧
    (updateOrder noFail "admin" 5 (soloProductos [sheet, pane]) db5).db.productos_pedido.filter
        (fun r => r.pedido_id == 5) =
      [⟨5, Val.str "sheet", Val.num ⟨1, by decide⟩, Val.num ⟨4, by decide⟩,
         Val.num ⟨1, by decide⟩, Val.num ⟨4, by decide⟩⟩,
       ⟨5, Val.str "pane", Val.num ⟨2, by decide⟩, Val.num ⟨10, by decide⟩,
         Val.num ⟨2, by decide⟩, Val.num ⟨20, by decide⟩⟩] :=
  ⟨by decide,
   ((C2_update_replaces_line_items noFail "admin" 5 (soloProductos [sheet, pane]) db5
      (by decide)).1 [sheet, pane] rfl (by decide)).1⟩

/-- C3, the claim as stated fails: on the empty datastore `PUT /api/pedidos/1`
with one line item answers 500 and leaves a line item that references order 1;
the `POST /api/pedidos` that follows meets no failure, is assigned id 1 and
answers 201 with two line items where one was submitted. -/
theorem C3_create_returns_items_not_submitted :
    (updateOrder noFail "admin" 1 (soloProductos [sheet]) emptyDB).response.status = 500 ∧
    (updateOrder noFail "admin" 1 (soloProductos [sheet]) emptyDB).db =
      ⟨[], [toRow 1 sheet], 1⟩ ∧
    crearF1.productos = some [pane] ∧
    (createOrder env0 noFail crearF1 ⟨[], [toRow 1 sheet], 1⟩).response =
      ⟨201, Body.pedido
        ⟨⟨1, Val.str "F-1", Val.str "Acme", 200, Val.str "2024-01-31", Val.str "pending", Val.null⟩,
         [⟨1, Val.str "sheet", Val.num ⟨1, by decide⟩, Val.num ⟨4, by decide⟩,
            Val.num ⟨1, by decide⟩, Val.num ⟨4, by decide⟩⟩,
          ⟨1, Val.str "pane", Val.num ⟨2, by decide⟩, Val.num ⟨10, by decide⟩,
            Val.num ⟨2, by decide⟩, Val.num ⟨20, by decide⟩⟩]⟩⟩ := by
  decide

/-- C4. Three requests that answer 500 and yet change the persisted tables: an
update of an id without order but with line items, an update whose read-back
`SELECT` is rejected after `commit`, and a create whose read-back `SELECT` is
rejected after `commit`. -/
theorem C4_error_after_commit_persists :
    ((updateOrder noFail "admin" 7 (soloProductos [sheet]) db5).response.status = 500 ∧
     (updateOrder noFail "admin" 7 (soloProductos [sheet]) db5).db.productos_pedido =
        [toRow 5 pane, toRow 7 sheet]) ∧
    ((updateOrder (failAt 3) "admin" 5 (soloEstado (Val.str "done")) db5).response.status = 500 ∧
     (updateOrder (failAt 3) "admin" 5 (soloEstado (Val.str "done")) db5).db.pedidos =
        [{ pedido5 with estado := Val.str "done" }]) ∧
    ((createOrder env0 (failAt 4) crearF1 emptyDB).response.status = 500 ∧
     (createOrder env0 (failAt 4) crearF1 emptyDB).db.pedidos.length = 1 ∧
     (createOrder env0 (failAt 4) crearF1 emptyDB).db.productos_pedido = [toRow 1 pane]) := by
  decide

/-- C5. The datastore holding order 5 satisfies the referential invariant; after
`PUT /api/pedidos/7` with one line item it holds a line item whose `pedido_id`
is 7 and no order 7. -/
theorem C5_update_of_missing_order_leaves_orphan :
    RefIntegrity db5 ∧
    ¬ RefIntegrity (updateOrder noFail "cortador" 7 (soloProductos [pane]) db5).db ∧
    toRow 7 pane ∈ (updateOrder noFail "cortador" 7 (soloProductos [pane]) db5).db.productos_pedido ∧
    (updateOrder noFail "cortador" 7 (soloProductos [pane]) db5).db.pedidos = [pedido5] := by
  have hdb : (updateOrder noFail "cortador" 7 (soloProductos [pane]) db5).db =
      ⟨[pedido5], [toRow 5 pane, toRow 7 pane], 6⟩ := by decide
  rw [hdb]
  refine ⟨?_, ?_, by decide, rfl⟩
  · intro r hr
    simp only [db5, List.mem_singleton] at hr
    subst hr
    exact ⟨pedido5, by simp [db5], rfl⟩
  · intro hri
    obtain ⟨p, hp, hid⟩ := hri (toRow 7 pane) (by simp)
    simp only [List.mem_singleton] at hp
    subst hp
    revert hid
    decide

/-! ## Delete -/

theorem selectPedido_deleteTables (id j : Nat) (db : DB) :
    selectPedido j (deleteTables id db) = if j = id then [] else selectPedido j db := by
  simp only [selectPedido, deleteTables, deletePedido, deleteProductos, List.filter_filter]
  by_cases hj : j = id
  · subst hj
    simp
  · simp only [hj, if_false]
    apply List.filter_congr
    intro p _
    by_cases hp : p.id = j
    · simp [hp, hj]
    · simp [hp]

theorem selectProductos_deleteTables (id j : Nat) (db : DB) :
    selectProductos j (deleteTables id db) = if j = id then [] else selectProductos j db := by
  simp only [selectProductos, deleteTables, deletePedido, deleteProductos, List.filter_filter]
  by_cases hj : j = id
  · subst hj
    simp
  · simp only [hj, if_false]
    apply List.filter_congr
    intro r _
    by_cases hr : r.pedido_id = j
    · simp [hr, hj]
    · simp [hr]

/-- C6, the claim as stated fails: the datastore left by `PUT /api/pedidos/7`
on the empty datastore has no order 7, and `DELETE /api/pedidos/7` meets no
failure, answers 200 and changes it. -/
theorem C6_delete_of_missing_order_changes_state :
    (updateOrder noFail "admin" 7 (soloProductos [sheet]) emptyDB).db =
      ⟨[], [toRow 7 sheet], 1⟩ ∧
    (selectPedido 7 ⟨[], [toRow 7 sheet], 1⟩ = []) ∧
    (deleteOrder noFail 7 ⟨[], [toRow 7 sheet], 1⟩).response.status = 200 ∧
    (deleteOrder noFail 7 ⟨[], [toRow 7 sheet], 1⟩).db ≠ ⟨[], [toRow 7 sheet], 1⟩ := by
  decide

/-- C6 as amended. `DELETE /api/pedidos/:id` that meets no datastore failure
answers 200, also when no order has that id; afterwards no order has that id
and no line item references it, a following list never shows it, every other
order and its line items are what they were; when no order has that id the
table of orders is unchanged, and so is the whole datastore when in addition no
line item references the id. -/
theorem C6_delete_removes_order_and_items (fail : Nat → Bool) (hf : ∀ n, fail n = false)
    (id : Nat) (db : DB) :
    (deleteOrder fail id db).response = ⟨200, Body.message "Pedido eliminado exitosamente"⟩ ∧
    (∀ p ∈ (deleteOrder fail id db).db.pedidos, p.id ≠ id) ∧
    (∀ r ∈ (deleteOrder fail id db).db.productos_pedido, r.pedido_id ≠ id) ∧
    (∃ l, listOrders fail (deleteOrder fail id db).db = ⟨200, Body.pedidos l⟩) ∧
    (∀ (fail2 : Nat → Bool) (l : List PedidoConProductos),
      listOrders fail2 (deleteOrder fail id db).db = ⟨200, Body.pedidos l⟩ →
      ∀ v ∈ l, v.pedido.id ≠ id) ∧
    (∀ j, j ≠ id →
      selectPedido j (deleteOrder fail id db).db = selectPedido j db ∧
      selectProductos j (deleteOrder fail id db).db = selectProductos j db) ∧
    ((∀ p ∈ db.pedidos, p.id ≠ id) →
      (deleteOrder fail id db).db.pedidos = db.pedidos ∧
      ((∀ r ∈ db.productos_pedido, r.pedido_id ≠ id) → (deleteOrder fail id db).db = db)) := by
  rw [deleteOrder_noFail hf]
  simp only
  have hped : ∀ p ∈ (deleteTables id db).pedidos, p.id ≠ id := by
    intro p hp
    simp only [deleteTables, deletePedido, deleteProductos, List.mem_filter, bne_iff_ne] at hp
    exact hp.2
  refine ⟨trivial, hped, ?_, ⟨_, listOrders_noFail hf _⟩, ?_, ?_, ?_⟩
  · intro r hr
    simp only [deleteTables, deletePedido, deleteProductos, List.mem_filter, bne_iff_ne] at hr
    exact hr.2
  · intro fail2 l hl v hv
    rw [listOrders_ok hl, List.mem_map] at hv
    obtain ⟨p, hp, hpv⟩ := hv
    subst hpv
    rw [mem_selectPedidosDesc] at hp
    exact hped p hp
  · intro j hj
    rw [selectPedido_deleteTables, selectProductos_deleteTables]
    simp [hj]
  · intro hno
    have h1 : (deleteTables id db).pedidos = db.pedidos := by
      simp only [deleteTables, deletePedido, deleteProductos]
      rw [List.filter_eq_self]
      intro p hp
      simpa using hno p hp
    refine ⟨h1, ?_⟩
    intro hnr
    have h2 : (deleteTables id db).productos_pedido = db.productos_pedido := by
      simp only [deleteTables, deletePedido, deleteProductos]
      rw [List.filter_eq_self]
      intro r hr
      simpa using hnr r hr
    have h3 : (deleteTables id db).nextId = db.nextId := rfl
    cases hd : deleteTables id db with
    | mk a b c =>
      rw [hd] at h1 h2 h3
      simp only at h1 h2 h3
      subst h1; subst h2; subst h3
      rfl

/-- C6 as amended at the delete of order 5. -/
theorem C6_witness :
    (deleteOrder noFail 5 db5).response = ⟨200, Body.message "Pedido eliminado exitosamente"⟩ ∧
    (∀ p ∈ (deleteOrder noFail 5 db5).db.pedidos, p.id ≠ 5) :=
  ⟨(C6_delete_removes_order_and_items noFail (fun _ => rfl) 5 db5).1,
   (C6_delete_removes_order_and_items noFail (fun _ => rfl) 5 db5).2.1⟩

/-- C7, the claim as stated fails: an update of order 5 by an actor of role
`cortador` that supplies `estado = false`, or `estado = 0`, succeeds, stores the
value, and emits the coarse notification only. -/
theorem C7_falsy_estado_emits_nothing :
    ((updateOrder noFail "cortador" 5 (soloEstado (Val.bool false)) db5).response.status = 200 ∧
      (updateOrder noFail "cortador" 5 (soloEstado (Val.bool false)) db5).db.pedidos =
        [{ pedido5 with estado := Val.bool false }] ∧
      (updateOrder noFail "cortador" 5 (soloEstado (Val.bool false)) db5).events =
        [Event.actualizacionPedidos]) ∧
    ((updateOrder noFail "cortador" 5 (soloEstado (Val.num ⟨0, by decide⟩)) db5).response.status
        = 200 ∧
      (updateOrder noFail "cortador" 5 (soloEstado (Val.num ⟨0, by decide⟩)) db5).db.pedidos =
        [{ pedido5 with estado := Val.num ⟨0, by decide⟩ }] ∧
      (updateOrder noFail "cortador" 5 (soloEstado (Val.num ⟨0, by decide⟩)) db5).events =
        [Event.actualizacionPedidos]) := by
  decide

/-- C7 as amended at order 5 with a body holding `estado = "cutting"` and
`cortador = "Luis"`: the message and the snapshot in full. -/
theorem C7_witness :
    Truthy (Val.str "cutting") ∧
    (updateOrder noFail "cortador" 5
      ⟨none, none, none, some (Val.str "cutting"), some (Val.str "Luis"), none⟩ db5).response.status
        = 200 ∧
    (updateOrder noFail "cortador" 5
      ⟨none, none, none, some (Val.str "cutting"), some (Val.str "Luis"), none⟩ db5).events =
      [Event.actualizacionPedidos,
       Event.pedidoActualizado 5 "Pedido F-1 - Acme: Se ha actualizado el estado a cutting"
        ⟨⟨5, Val.str "F-1", Val.str "Acme", 100, Val.str "2024-01-31", Val.str "cutting",
          Val.str "Luis"⟩,
         [⟨5, Val.str "pane", Val.num ⟨2, by decide⟩, Val.num ⟨10, by decide⟩,
           Val.num ⟨2, by decide⟩, Val.num ⟨20, by decide⟩⟩]⟩] := by
  have ht : Truthy (Val.str "cutting") := by simp [Truthy]
  refine ⟨ht, by decide, ?_⟩
  obtain ⟨p, u, _, _, _, _, h5, _, _, h8⟩ :=
    C7_cortador_status_message noFail 5
      ⟨none, none, none, some (Val.str "cutting"), some (Val.str "Luis"), none⟩ db5
      (Val.str "cutting") rfl ht (by decide)
  have hresp : (updateOrder noFail "cortador" 5
      ⟨none, none, none, some (Val.str "cutting"), some (Val.str "Luis"), none⟩ db5).response =
      ⟨200, Body.pedido
        ⟨⟨5, Val.str "F-1", Val.str "Acme", 100, Val.str "2024-01-31", Val.str "cutting",
          Val.str "Luis"⟩,
         [⟨5, Val.str "pane", Val.num ⟨2, by decide⟩, Val.num ⟨10, by decide⟩,
           Val.num ⟨2, by decide⟩, Val.num ⟨20, by decide⟩⟩]⟩⟩ := by decide
  rw [hresp] at h5
  simp only [Response.mk.injEq, Body.pedido.injEq, true_and] at h5
  subst h5
  exact h8 "F-1" "Acme" "cutting" rfl rfl rfl

/-- C8, the claim as stated fails: an `admin` update of order 5 that supplies
`estado = "cutting"` together with `cortador = ""`, or with `cortador = null`,
succeeds, stores both fields, and its single `pedidoActualizado` carries the
status message. -/
theorem C8_falsy_cutter_keeps_status_message :
    ((updateOrder noFail "admin" 5
        ⟨none, none, none, some (Val.str "cutting"), some (Val.str ""), none⟩ db5).response.status
          = 200 ∧
      (updateOrder noFail "admin" 5
        ⟨none, none, none, some (Val.str "cutting"), some (Val.str ""), none⟩ db5).events =
        [Event.actualizacionPedidos,
         Event.pedidoActualizado 5 "Pedido F-1 - Acme: Se ha actualizado el estado a cutting"
          ⟨{ pedido5 with estado := Val.str "cutting", cortador := Val.str "" },
           [⟨5, Val.str "pane", Val.num ⟨2, by decide⟩, Val.num ⟨10, by decide⟩,
             Val.num ⟨2, by decide⟩, Val.num ⟨20, by decide⟩⟩]⟩]) ∧
    ((updateOrder noFail "admin" 5
        ⟨none, none, none, some (Val.str "cutting"), some Val.null, none⟩ db5).response.status
          = 200 ∧
      (updateOrder noFail "admin" 5
        ⟨none, none, none, some (Val.str "cutting"), some Val.null, none⟩ db5).events =
        [Event.actualizacionPedidos,
         Event.pedidoActualizado 5 "Pedido F-1 - Acme: Se ha actualizado el estado a cutting"
          ⟨{ pedido5 with estado := Val.str "cutting" }, [⟨5, Val.str "pane", Val.num ⟨2, by decide⟩, Val.num ⟨10, by decide⟩,
             Val.num ⟨2, by decide⟩, Val.num ⟨20, by decide⟩⟩]⟩]) ∧
    "Pedido F-1 - Acme: Se ha actualizado el estado a cutting" ≠
      "Pedido F-1 - Acme: Se ha asignado al cortador " := by
  decide

/-- C8 as amended at order 6, whose invoice number is the number 17 and whose
client is `null`, with `estado = "cutting"` and `cortador = "Luis"`: the message
and the snapshot in full. -/
theorem C8_witness :
    Truthy (Val.str "Luis") ∧
    (updateOrder noFail "admin" 6
      ⟨none, none, none, some (Val.str "cutting"), some (Val.str "Luis"), none⟩ db56).response.status
        = 200 ∧
    (updateOrder noFail "admin" 6
      ⟨none, none, none, some (Val.str "cutting"), some (Val.str "Luis"), none⟩ db56).events =
      [Event.actualizacionPedidos,
       Event.pedidoActualizado 6 "Pedido 17 - null: Se ha asignado al cortador Luis"
        ⟨⟨6, Val.num ⟨17, by decide⟩, Val.null, 150, Val.str "2024-02-15", Val.str "cutting",
          Val.str "Luis"⟩, []⟩] := by
  have ht : Truthy (Val.str "Luis") := by simp [Truthy]
  refine ⟨ht, by decide, ?_⟩
  obtain ⟨p, u, _, _, _, _, h5, h6, _, _⟩ :=
    C8_cutter_message_wins noFail "admin" 6
      ⟨none, none, none, some (Val.str "cutting"), some (Val.str "Luis"), none⟩ db56
      (Val.str "Luis") (by decide) rfl ht (by decide)
  have hresp : (updateOrder noFail "admin" 6
      ⟨none, none, none, some (Val.str "cutting"), some (Val.str "Luis"), none⟩ db56).response =
      ⟨200, Body.pedido
        ⟨⟨6, Val.num ⟨17, by decide⟩, Val.null, 150, Val.str "2024-02-15", Val.str "cutting",
          Val.str "Luis"⟩, []⟩⟩ := by decide
  rw [hresp] at h5
  simp only [Response.mk.injEq, Body.pedido.injEq, true_and] at h5
  subst h5
  exact h6

/-- C9, the claim as stated fails: an `admin` update of order 5 that supplies
the empty string as `estado` and no `cortador` succeeds, stores the value, and
emits the coarse notification only. -/
theorem C9_empty_estado_emits_nothing :
    (updateOrder noFail "admin" 5 (soloEstado (Val.str "")) db5).response.status = 200 ∧
    (updateOrder noFail "admin" 5 (soloEstado (Val.str "")) db5).db.pedidos =
      [{ pedido5 with estado := Val.str "" }] ∧
    (updateOrder noFail "admin" 5 (soloEstado (Val.str "")) db5).events =
      [Event.actualizacionPedidos] := by
  decide

/-- C9 as amended at order 5 of the datastore with two orders, with a body
holding only `estado = true`: the message and the snapshot in full. -/
theorem C9_witness :
    Truthy (Val.bool true) ∧
    (updateOrder noFail "admin" 5 (soloEstado (Val.bool true)) db56).response.status = 200 ∧
    (updateOrder noFail "admin" 5 (soloEstado (Val.bool true)) db56).events =
      [Event.actualizacionPedidos,
       Event.pedidoActualizado 5 "Pedido F-1 - Acme: Se ha actualizado el estado a true"
        ⟨⟨5, Val.str "F-1", Val.str "Acme", 100, Val.str "2024-01-31", Val.bool true, Val.null⟩,
         [⟨5, Val.str "pane", Val.num ⟨2, by decide⟩, Val.num ⟨10, by decide⟩,
           Val.num ⟨2, by decide⟩, Val.num ⟨20, by decide⟩⟩,
          ⟨5, Val.str "sheet", Val.num ⟨1, by decide⟩, Val.num ⟨4, by decide⟩,
           Val.num ⟨1, by decide⟩, Val.num ⟨4, by decide⟩⟩]⟩] := by
  have ht : Truthy (Val.bool true) := by simp [Truthy]
  refine ⟨ht, by decide, ?_⟩
  obtain ⟨p, u, _, _, _, _, h5, h6, _⟩ :=
    C9_status_message noFail "admin" 5 (soloEstado (Val.bool true)) db56 (Val.bool true)
      (by decide) rfl ht rfl (by decide)
  have hresp : (updateOrder noFail "admin" 5 (soloEstado (Val.bool true)) db56).response =
      ⟨200, Body.pedido
        ⟨⟨5, Val.str "F-1", Val.str "Acme", 100, Val.str "2024-01-31", Val.bool true, Val.null⟩,
         [⟨5, Val.str "pane", Val.num ⟨2, by decide⟩, Val.num ⟨10, by decide⟩,
           Val.num ⟨2, by decide⟩, Val.num ⟨20, by decide⟩⟩,
          ⟨5, Val.str "sheet", Val.num ⟨1, by decide⟩, Val.num ⟨4, by decide⟩,
           Val.num ⟨1, by decide⟩, Val.num ⟨4, by decide⟩⟩]⟩⟩ := by decide
  rw [hresp] at h5
  simp only [Response.mk.injEq, Body.pedido.injEq, true_and] at h5
  subst h5
  exact h6

/-- C10 at a create, an update, a delete, and an update of `cliente` alone. -/
theorem C10_witness :
    ((createOrder env0 noFail crearF1 emptyDB).events.filter Event.isCoarse).length = 1 ∧
    ((updateOrder noFail "admin" 5 (soloEstado (Val.str "done")) db5).events.filter
      Event.isCoarse).length = 1 ∧
    ((deleteOrder noFail 5 db5).events.filter Event.isCoarse).length = 1 ∧
    (updateOrder noFail "admin" 5 ⟨none, some (Val.str "Vidrios SA"), none, none, none, none⟩
      db5).events = [Event.actualizacionPedidos] :=
  ⟨C10_coarse_once_descriptive_only_on_change.1 env0 noFail crearF1 emptyDB (by decide),
   C10_coarse_once_descriptive_only_on_change.2.1 noFail "admin" 5 (soloEstado (Val.str "done"))
    db5 (by decide),
   C10_coarse_once_descriptive_only_on_change.2.2.1 noFail 5 db5 (by decide),
   (C10_coarse_once_descriptive_only_on_change.2.2.2 noFail "admin" 5
    ⟨none, some (Val.str "Vidrios SA"), none, none, none, none⟩ db5 (by decide) rfl rfl).1⟩

/-! ## Create -/

theorem insertId_fresh (db : DB) : ∀ p ∈ db.pedidos, p.id < insertId db := by
  have h : ∀ l : List Pedido, ∀ p ∈ l, p.id < l.foldr (fun p m => max (p.id + 1) m) 0 := by
    intro l
    induction l with
    | nil => intro p hp; simp at hp
    | cons q l ih =>
      intro p hp
      simp only [List.foldr_cons]
      rcases List.mem_cons.mp hp with hq | hl
      · subst hq
        omega
      · have := ih p hl
        omega
  intro p hp
  have := h db.pedidos p hp
  unfold insertId
  omega

theorem selectPedido_createTables (env : Env) (req : CreateReq) (ps : List Producto) (db : DB) :
    selectPedido (insertId db) (createTables env req ps db) = [nuevoPedido env req db] := by
  have h1 : db.pedidos.filter (fun p => p.id == insertId db) = [] := by
    rw [List.filter_eq_nil_iff]
    intro p hp
    have := insertId_fresh db p hp
    simp only [beq_iff_eq]
    omega
  simp [selectPedido, createTables, insertPedido, List.filter_append, h1, nuevoPedido]

theorem selectProductos_createTables (env : Env) (req : CreateReq) (ps : List Producto) (db : DB)
    (h : ∀ r ∈ db.productos_pedido, r.pedido_id ≠ insertId db) :
    selectProductos (insertId db) (createTables env req ps db) = ps.map (toRow (insertId db)) := by
  have h1 : db.productos_pedido.filter (fun r => r.pedido_id == insertId db) = [] := by
    rw [List.filter_eq_nil_iff]
    intro r hr
    simpa using h r hr
  have h2 : (ps.map (toRow (insertId db))).filter (fun r => r.pedido_id == insertId db) =
      ps.map (toRow (insertId db)) := by
    rw [List.filter_eq_self]
    intro r hr
    rw [List.mem_map] at hr
    obtain ⟨q, _, hq⟩ := hr
    subst hq
    simp [toRow]
  simp only [selectProductos, createTables, insertPedido, List.filter_append, h1, h2,
    List.nil_append]

/-- C3 as amended. On a datastore in which no stored line item references the id
the datastore generates next, a create request whose `productos` is a list and
which meets no datastore failure answers 201 with the order `nuevoPedido`: its
id is the generated one, which no stored order carries, its fields are the
supplied ones, and its items are exactly the submitted ones, field by field and
in order, each referencing the new id; the order and these items are what the
tables hold under that id, and a following list shows that order with those
items and no other entry under that id. -/
theorem C3_create_returns_submitted_items (env : Env) (fail : Nat → Bool)
    (hf : ∀ n, fail n = false) (req : CreateReq) (ps : List Producto)
    (hps : req.productos = some ps) (db : DB)
    (hfree : ∀ r ∈ db.productos_pedido, r.pedido_id ≠ insertId db) :
    (createOrder env fail req db).response =
      ⟨201, Body.pedido ⟨nuevoPedido env req db, ps.map (fun p =>
        (⟨insertId db, p.descripcion, p.cantidad, p.ingreso, p.egreso, p.total⟩ :
          ProductoRow))⟩⟩ ∧
    (∀ p ∈ db.pedidos, p.id ≠ insertId db) ∧
    (ps.map (fun p =>
        (⟨insertId db, p.descripcion, p.cantidad, p.ingreso, p.egreso, p.total⟩ :
          ProductoRow))).length = ps.length ∧
    nuevoPedido env req db ∈ (createOrder env fail req db).db.pedidos ∧
    (createOrder env fail req db).db.productos_pedido.filter
        (fun r => r.pedido_id == insertId db) =
      ps.map (fun p =>
        (⟨insertId db, p.descripcion, p.cantidad, p.ingreso, p.egreso, p.total⟩ :
          ProductoRow)) ∧
    ∃ l, listOrders fail (createOrder env fail req db).db = ⟨200, Body.pedidos l⟩ ∧
      (⟨nuevoPedido env req db, ps.map (fun p =>
        (⟨insertId db, p.descripcion, p.cantidad, p.ingreso, p.egreso, p.total⟩ :
          ProductoRow))⟩ : PedidoConProductos) ∈ l ∧
      ∀ v ∈ l, v.pedido.id = insertId db →
        v = ⟨nuevoPedido env req db, ps.map (fun p =>
          (⟨insertId db, p.descripcion, p.cantidad, p.ingreso, p.egreso, p.total⟩ :
            ProductoRow))⟩ := by
  have hrow : (fun p : Producto =>
      (⟨insertId db, p.descripcion, p.cantidad, p.ingreso, p.egreso, p.total⟩ : ProductoRow)) =
      toRow (insertId db) := rfl
  rw [hrow]
  have hsp := selectPedido_createTables env req ps db
  have hsr := selectProductos_createTables env req ps db hfree
  have hb := createBody_noFail hf env req ps hps db (nuevoPedido env req db) (by rw [hsp]; rfl)
  have hout : createOrder env fail req db =
      { db := createTables env req ps db
        log := createLog ps
        events := [Event.actualizacionPedidos]
        response := ⟨201, Body.pedido ⟨nuevoPedido env req db, ps.map (toRow (insertId db))⟩⟩ } := by
    simp only [createOrder, hb, hsr]
  rw [hout]
  refine ⟨rfl, ?_, List.length_map _ _, ?_, hsr, ?_⟩
  · intro p hp
    have := insertId_fresh db p hp
    omega
  · simp [createTables, insertPedido, nuevoPedido]
  · refine ⟨_, listOrders_noFail hf _, ?_, ?_⟩
    · rw [List.mem_map]
      refine ⟨nuevoPedido env req db, ?_, ?_⟩
      · rw [mem_selectPedidosDesc]
        simp [createTables, insertPedido, nuevoPedido]
      · simp only [nuevoPedido] at hsr ⊢
        rw [hsr]
    · intro v hv hvid
      rw [List.mem_map] at hv
      obtain ⟨p, hp, hpv⟩ := hv
      subst hpv
      simp only at hvid
      rw [mem_selectPedidosDesc] at hp
      have hp2 : p ∈ selectPedido (insertId db) (createTables env req ps db) := by
        simp only [selectPedido, List.mem_filter, beq_iff_eq]
        exact ⟨hp, hvid⟩
      rw [hsp, List.mem_singleton] at hp2
      subst hp2
      simp only [nuevoPedido] at hsr ⊢
      rw [hsr]

/-- C3 as amended at the create scenario of the specification on the datastore
that holds order 5: the new order gets id 6 and the one submitted item. -/
theorem C3_witness :
    (∀ r ∈ db5.productos_pedido, r.pedido_id ≠ insertId db5) ∧
    (createOrder env0 noFail crearF1 db5).response =
      ⟨201, Body.pedido
        ⟨⟨6, Val.str "F-1", Val.str "Acme", 200, Val.str "2024-01-31", Val.str "pending",
          Val.null⟩,
         [⟨6, Val.str "pane", Val.num ⟨2, by decide⟩, Val.num ⟨10, by decide⟩,
           Val.num ⟨2, by decide⟩, Val.num ⟨20, by decide⟩⟩]⟩⟩ :=
  ⟨by decide,
   (C3_create_returns_submitted_items env0 noFail (fun _ => rfl) crearF1 [pane] rfl db5
      (by decide)).1⟩

/-! ## What an error response leaves behind -/

theorem rollback_rows_of_open {e : Conn} {db : DB} (h : e.snapshot = some db) :
    (rollback e).db.pedidos = db.pedidos ∧
    (rollback e).db.productos_pedido = db.productos_pedido := by
  simp [rollback, h]

theorem rollback_of_closed {e : Conn} (h : e.snapshot = none) : (rollback e).db = e.db := by
  simp [rollback, h]

theorem updateFieldsStep_error {fail : Nat → Bool} {id : Nat} {req : UpdateReq} {c e : Conn}
    (h : updateFieldsStep fail id req c = .error e) : e.snapshot = c.snapshot := by
  unfold updateFieldsStep at h
  split at h
  · exact (query_error h).1
  · simp at h

theorem replaceProductos_error {fail : Nat → Bool} {id : Nat} {productos : Option (List Producto)}
    {c e : Conn} (h : replaceProductos fail id productos c = .error e) :
    e.snapshot = c.snapshot := by
  unfold replaceProductos at h
  split at h
  · simp at h
  · split at h
    · split at h
      · rename_i e1 hq
        simp only [Except.error.injEq] at h
        subst h
        exact (query_error hq).1
      · rename_i c1 hq
        have hs := insertProductos_error _ _ _ _ _ h
        rw [hs, query_ok hq]
    · simp at h

theorem createProductos_error {fail : Nat → Bool} {id : Nat} {productos : Option (List Producto)}
    {c e : Conn} (h : createProductos fail id productos c = .error e) :
    e.snapshot = c.snapshot := by
  unfold createProductos at h
  split at h
  · simp only [Except.error.injEq] at h
    subst h
    rfl
  · exact insertProductos_error _ _ _ _ _ h

theorem updateFieldsStep_snapshot {fail : Nat → Bool} {id : Nat} {req : UpdateReq} {c c1 : Conn}
    (h : updateFieldsStep fail id req c = .ok c1) : c1.snapshot = c.snapshot := by
  unfold updateFieldsStep at h
  split at h
  · rw [query_ok h]
  · simp only [Except.ok.injEq] at h
    rw [h]

theorem replaceProductos_snapshot {fail : Nat → Bool} {id : Nat}
    {productos : Option (List Producto)} {c c1 : Conn}
    (h : replaceProductos fail id productos c = .ok c1) : c1.snapshot = c.snapshot := by
  unfold replaceProductos at h
  split at h
  · simp only [Except.ok.injEq] at h
    rw [h]
  · split at h
    · split at h
      · simp at h
      · rename_i c2 hq
        rw [insertProductos_ok _ _ _ _ _ h, query_ok hq]
    · simp only [Except.ok.injEq] at h
      rw [h]

theorem createProductos_snapshot {fail : Nat → Bool} {id : Nat}
    {productos : Option (List Producto)} {c c1 : Conn}
    (h : createProductos fail id productos c = .ok c1) : c1.snapshot = c.snapshot := by
  unfold createProductos at h
  split at h
  · simp at h
  · rw [insertProductos_ok _ _ _ _ _ h]

/-- A delete that answers 500 leaves the rows of both tables as they were. -/
theorem deleteOrder_error_rows (fail : Nat → Bool) (id : Nat) (db : DB)
    (h : (deleteOrder fail id db).response.status = 500) :
    (deleteOrder fail id db).db.pedidos = db.pedidos ∧
    (deleteOrder fail id db).db.productos_pedido = db.productos_pedido := by
  unfold deleteOrder at h ⊢
  cases hb : deleteBody fail id (getConnection db) with
  | ok c => rw [hb] at h; simp at h
  | error e =>
    simp only
    simp only [deleteBody, bind_error_iff] at hb
    rcases hb with h1 | ⟨c1, h1, hb⟩
    · obtain ⟨hs, hd⟩ := beginTransaction_error h1
      rw [rollback_of_closed (by rw [hs]; rfl), hd]
      exact ⟨rfl, rfl⟩
    · have e1 := beginTransaction_ok h1
      apply rollback_rows_of_open
      rcases hb with h2 | ⟨c2, h2, hb⟩
      · rw [(query_error h2).1, e1]; rfl
      · have e2 := query_ok h2
        rcases hb with h3 | ⟨c3, h3, h4⟩
        · rw [(query_error h3).1, e2, e1]; rfl
        · rw [(commit_error h4).1, query_ok h3, e2, e1]; rfl

/-- An update that answers 500 either leaves the rows of both tables as they
were or, when the error arises after `commit`, leaves the committed tables. -/
theorem updateOrder_error_rows (fail : Nat → Bool) (userRole : String) (id : Nat)
    (req : UpdateReq) (db : DB)
    (h : (updateOrder fail userRole id req db).response.status = 500) :
    ((updateOrder fail userRole id req db).db.pedidos = db.pedidos ∧
      (updateOrder fail userRole id req db).db.productos_pedido = db.productos_pedido) ∨
    (updateOrder fail userRole id req db).db = updateTables id req db := by
  unfold updateOrder at h ⊢
  cases hb : updateBody fail id req (getConnection db) with
  | ok r => rw [hb] at h; simp at h
  | error e =>
    simp only
    simp only [updateBody, bind_error_iff] at hb
    rcases hb with h1 | ⟨c1, h1, hb⟩
    · left
      obtain ⟨hs, hd⟩ := beginTransaction_error h1
      rw [rollback_of_closed (by rw [hs]; rfl), hd]
      exact ⟨rfl, rfl⟩
    · have e1 : c1.snapshot = some db := by rw [beginTransaction_ok h1]; rfl
      rcases hb with h2 | ⟨c2, h2, hb⟩
      · left
        apply rollback_rows_of_open
        rw [updateFieldsStep_error h2, e1]
      · have e2 : c2.snapshot = some db := by rw [updateFieldsStep_snapshot h2, e1]
        rcases hb with h3 | ⟨c3, h3, hb⟩
        · left
          apply rollback_rows_of_open
          rw [replaceProductos_error h3, e2]
        · have e3 : c3.snapshot = some db := by rw [replaceProductos_snapshot h3, e2]
          rcases hb with h4 | ⟨c4, h4, h5⟩
          · left
            apply rollback_rows_of_open
            rw [(commit_error h4).1, e3]
          · right
            have e4 := update_commit_ok h1 h2 h3 h4
            obtain ⟨hs, hd⟩ := readBack_error h5
            rw [rollback_of_closed (by rw [hs, e4]), hd, e4]

/-- A create that answers 500 either leaves the rows of both tables as they
were or, when the error arises after `commit`, leaves the committed tables. -/
theorem createOrder_error_rows (env : Env) (fail : Nat → Bool) (req : CreateReq) (db : DB)
    (h : (createOrder env fail req db).response.status = 500) :
    ((createOrder env fail req db).db.pedidos = db.pedidos ∧
      (createOrder env fail req db).db.productos_pedido = db.productos_pedido) ∨
    ∃ ps, req.productos = some ps ∧
      (createOrder env fail req db).db = createTables env req ps db := by
  unfold createOrder at h ⊢
  cases hb : createBody env fail req (getConnection db) with
  | ok r => rw [hb] at h; simp at h
  | error e =>
    simp only
    simp only [createBody, bind_error_iff] at hb
    rcases hb with h1 | ⟨c1, h1, hb⟩
    · left
      obtain ⟨hs, hd⟩ := beginTransaction_error h1
      rw [rollback_of_closed (by rw [hs]; rfl), hd]
      exact ⟨rfl, rfl⟩
    · have e1 : c1.snapshot = some db := by rw [beginTransaction_ok h1]; rfl
      rcases hb with h2 | ⟨c2, h2, hb⟩
      · left
        apply rollback_rows_of_open
        rw [(query_error h2).1, e1]
      · have e2 : c2.snapshot = some db := by rw [query_ok h2]; exact e1
        rcases hb with h3 | ⟨c3, h3, hb⟩
        · left
          apply rollback_rows_of_open
          rw [createProductos_error h3, e2]
        · have e3 : c3.snapshot = some db := by rw [createProductos_snapshot h3, e2]
          rcases hb with h4 | ⟨c4, h4, h5⟩
          · left
            apply rollback_rows_of_open
            rw [(commit_error h4).1, e3]
          · right
            obtain ⟨ps, hps, _, e4⟩ := create_commit_ok h1 h2 h3 h4
            obtain ⟨hs, hd⟩ := readBack_error h5
            refine ⟨ps, hps, ?_⟩
            rw [rollback_of_closed (by rw [hs, e4]), hd, e4]

/-- When a line-item insert of a create is rejected, the request answers 500 and
the rows of both tables are what they were: neither the order row nor any line
item of the attempt persists. -/
theorem createOrder_insert_failure_rows (env : Env) (fail : Nat → Bool) (req : CreateReq)
    (db : DB) (c1 c2 e : Conn)
    (h1 : beginTransaction fail (getConnection db) = .ok c1)
    (h2 : query fail Stmt.insertPedido
      (insertPedido env req.numero_factura req.cliente req.fecha_entrega) c1 = .ok c2)
    (h3 : createProductos fail (insertId c1.db) req.productos c2 = .error e) :
    (createOrder env fail req db).response.status = 500 ∧
    (createOrder env fail req db).db.pedidos = db.pedidos ∧
    (createOrder env fail req db).db.productos_pedido = db.productos_pedido := by
  have hb : createBody env fail req (getConnection db) = .error e := by
    simp only [createBody, bind, Except.bind, h1, h2, h3]
  have hs : e.snapshot = some db := by
    rw [createProductos_error h3, query_ok h2, beginTransaction_ok h1]
    rfl
  unfold createOrder
  rw [hb]
  exact ⟨rfl, rollback_rows_of_open hs⟩

/-! ## Where the referential invariant is kept -/

theorem RefIntegrity_of_rows {db1 db2 : DB} (hp : db2.pedidos = db1.pedidos)
    (hr : db2.productos_pedido = db1.productos_pedido) (h : RefIntegrity db1) :
    RefIntegrity db2 := by
  unfold RefIntegrity at h ⊢
  rw [hp, hr]
  exact h

theorem RefIntegrity_deleteTables (id : Nat) (db : DB) (h : RefIntegrity db) :
    RefIntegrity (deleteTables id db) := by
  intro r hr
  simp only [deleteTables, deletePedido, deleteProductos, List.mem_filter, bne_iff_ne] at hr ⊢
  obtain ⟨p, hp, hpr⟩ := h r hr.1
  exact ⟨p, ⟨hp, by rw [hpr]; exact hr.2⟩, hpr⟩

theorem RefIntegrity_createTables (env : Env) (req : CreateReq) (ps : List Producto) (db : DB)
    (h : RefIntegrity db) : RefIntegrity (createTables env req ps db) := by
  intro r hr
  simp only [createTables, insertPedido, List.mem_append, List.mem_map, List.mem_singleton] at hr ⊢
  rcases hr with hr | ⟨q, _, hq⟩
  · obtain ⟨p, hp, hpr⟩ := h r hr
    exact ⟨p, Or.inl hp, hpr⟩
  · subst hq
    exact ⟨_, Or.inr rfl, rfl⟩

theorem RefIntegrity_updateTables (id : Nat) (req : UpdateReq) (db : DB) (h : RefIntegrity db)
    (hex : ∃ p ∈ db.pedidos, p.id = id) : RefIntegrity (updateTables id req db) := by
  have hid : ∀ j, (∃ p ∈ db.pedidos, p.id = j) → ∃ p ∈ (updateTables id req db).pedidos, p.id = j := by
    intro j hj
    obtain ⟨p, hp, hpj⟩ := hj
    rw [updateTables_pedidos]
    refine ⟨if p.id = id then mergeFields req p else p, List.mem_map.mpr ⟨p, hp, rfl⟩, ?_⟩
    split
    · exact hpj
    · exact hpj
  intro r hr
  rw [updateTables_productos] at hr
  apply hid
  cases hps : req.productos with
  | none =>
    rw [hps] at hr
    exact h r hr
  | some ps =>
    rw [hps] at hr
    by_cases hlen : ps.length > 0
    · simp only [hlen, if_true, List.mem_append, List.mem_filter, List.mem_map] at hr
      rcases hr with hr | ⟨q, _, hq⟩
      · exact h r hr.1
      · subst hq
        exact hex
    · simp only [hlen, if_false] at hr
      exact h r hr

/-- The referential invariant survives every delete, every create and every
update that answers 200, whatever the failures met. -/
theorem RefIntegrity_kept (db : DB) (h : RefIntegrity db) :
    (∀ (fail : Nat → Bool) (id : Nat), RefIntegrity (deleteOrder fail id db).db) ∧
    (∀ (env : Env) (fail : Nat → Bool) (req : CreateReq),
      RefIntegrity (createOrder env fail req db).db) ∧
    (∀ (fail : Nat → Bool) (userRole : String) (id : Nat) (req : UpdateReq),
      (updateOrder fail userRole id req db).response.status = 200 →
      RefIntegrity (updateOrder fail userRole id req db).db) := by
  refine ⟨?_, ?_, ?_⟩
  · intro fail id
    by_cases hs : (deleteOrder fail id db).response.status = 200
    · rw [deleteOrder_ok hs]
      exact RefIntegrity_deleteTables id db h
    · have h5 : (deleteOrder fail id db).response.status = 500 := by
        unfold deleteOrder at hs ⊢
        cases hb : deleteBody fail id (getConnection db) with
        | ok c => rw [hb] at hs; simp at hs
        | error e => rfl
      obtain ⟨hp, hr⟩ := deleteOrder_error_rows fail id db h5
      exact RefIntegrity_of_rows hp hr h
  · intro env fail req
    by_cases hs : (createOrder env fail req db).response.status = 201
    · obtain ⟨ps, p, _, _, heq⟩ := createOrder_ok hs
      rw [heq]
      exact RefIntegrity_createTables env req ps db h
    · have h5 : (createOrder env fail req db).response.status = 500 := by
        unfold createOrder at hs ⊢
        cases hb : createBody env fail req (getConnection db) with
        | ok c => rw [hb] at hs; simp at hs
        | error e => rfl
      rcases createOrder_error_rows env fail req db h5 with ⟨hp, hr⟩ | ⟨ps, _, heq⟩
      · exact RefIntegrity_of_rows hp hr h
      · rw [heq]
        exact RefIntegrity_createTables env req ps db h
  · intro fail userRole id req hs
    have hex := updateOrder_ok_exists hs
    obtain ⟨p, _, heq⟩ := updateOrder_ok hs
    rw [heq]
    exact RefIntegrity_updateTables id req db h hex

end Vidrieria
